import Mathlib

/-!
QtRestClient: `tools/qrestbuilder/objectbuilder.cpp`

A shallow embedding of the class generator `ObjectBuilder` and the properties of
its output that the specification states.

Modelling conventions.

* A `QString` is the list of its code units (`QChar`); `QStringLiteral` turns a
  literal into one (all literals of the source are ASCII).  The source only
  concatenates and compares strings, tests a `startsWith`, and reads and writes
  one unit by index; the upper-case map of a unit is a parameter.
* A `QTextStream` is the text appended to it so far: `stream << a << b` is
  `(stream ++ a) ++ b`.
* The object is passed explicitly: every member function of the source maps
  an `ObjectBuilder` state to the next one.
* `throw` is the `Except.error` component of the result of `build`; the state
  reached is returned next to it, so that what a failing call leaves behind can
  be stated.
* `readIncludes`, `writeIncludes` (base class, not in this file) and
  `QChar::toUpper` (Qt) are parameters, collected in `Env`.
-/

namespace QtRestClient

/-! ## Qt value types -/

abbrev QChar := Char

abbrev QString := List QChar

/-- The literal `QStringLiteral("...")` (also the implicit conversion of a
C string literal to a `QString`). -/
def QStringLiteral (s : String) : QString := s.data

/-- The call `s.startsWith(p)`, case sensitive. -/
def QString.startsWith (s p : QString) : Bool := p.isPrefixOf s

/-- Reading `s[i]` through Qt 5's `QCharRef`: the character at `i`, and the
null character when `i` is not an index of `s`. -/
def QString.charAt (s : QString) (i : Nat) : QChar := s.getD i (Char.ofNat 0)

/-- Assigning `s[i] = c` through Qt 5's `QCharRef`: when `i` is not an index
of `s` the string is first expanded with blanks so that it is. -/
def QString.setCharAt (s : QString) (i : Nat) (c : QChar) : QString :=
  if i < s.length then s.set i c
  else s ++ List.replicate (i - s.length) ' ' ++ [c]

/-- A JSON value (`QJsonValue`).  The numeric payload is irrelevant to the
generator and kept as an integer. -/
inductive QJsonValue where
  | Null
  | Bool (b : Bool)
  | Double (d : Int)
  | String (s : QString)
  | Array (a : List QJsonValue)
  | Object (o : List (QString × QJsonValue))
  | Undefined

/-- The call `v.toString(defaultValue)`: the string held by `v`, and
`defaultValue` when `v` is not a string. -/
def QJsonValue.toStringOr : QJsonValue → QString → QString
  | QJsonValue.String s, _ => s
  | _, defaultValue => defaultValue

/-- The call `v.toString()`: the default is the null (empty) string. -/
def QJsonValue.toString (v : QJsonValue) : QString := v.toStringOr []

/-- A JSON object (`QJsonObject`), listed in its iteration order. -/
abbrev QJsonObject := List (QString × QJsonValue)

/-- The read access `root[key]` (`QJsonObject::value`): the value stored under `key`,
`Undefined` when there is none. -/
def QJsonObject.value : QJsonObject → QString → QJsonValue
  | [], _ => QJsonValue.Undefined
  | (k, v) :: rest, key => if k = key then v else QJsonObject.value rest key

/-- Modelled from the spec: the declaration of the field `members`
(objectbuilder.h) is not among the sources.  The spec (section 3) describes it as
an ordered mapping from member name to type name, keyed by name, whose
iteration order is insertion order. -/
abbrev Members := List (QString × QString)

/-- Modelled from the spec: `members.insert(key, value)` on the ordered mapping;
as for Qt's associative containers, the value of a key already present is
replaced, and a new key is added (here: at the end, insertion order). -/
def Members.insert : Members → QString → QString → Members
  | [], key, value => [(key, value)]
  | (k, v) :: rest, key, value =>
    if k = key then (k, value) :: rest else (k, v) :: Members.insert rest key value

/-! ## The builder state -/

/-- The two output streams. -/
inductive Stream where
  | header
  | source

/-- The state of an `ObjectBuilder`: the inputs set by the caller (`root`,
`className`, `fileName`), the two output streams, the member collection, and
the messages sent to `qInfo()`. -/
structure ObjectBuilder where
  root : QJsonObject
  className : QString
  fileName : QString
  header : QString
  source : QString
  members : Members
  info : List (List QString)

/-- The services the generator takes from outside this file. -/
structure Env where
  /-- Base-class service `RestBuilder::readIncludes()`: the include list of the schema. -/
  readIncludes : QJsonObject → List QString
  /-- Base-class service `RestBuilder::writeIncludes(stream, includes)`: the text it appends to the stream. -/
  writeIncludes : List QString → QString
  /-- Qt function `QChar::toUpper()`. -/
  toUpper : QChar → QChar

/-- The chain `stream << s₁ << s₂ << ...`: the segments are appended from left to right. -/
def ObjectBuilder.put (ob : ObjectBuilder) (stream : Stream) (segments : List QString) :
    ObjectBuilder :=
  match stream with
  | Stream.header => { ob with header := segments.foldl (fun acc s => acc ++ s) ob.header }
  | Stream.source => { ob with source := segments.foldl (fun acc s => acc ++ s) ob.source }

/-- The statement `qInfo() << a << b`. -/
def ObjectBuilder.qInfo (ob : ObjectBuilder) (message : List QString) : ObjectBuilder :=
  { ob with info := ob.info ++ [message] }

/-! ## The member functions of `ObjectBuilder` -/

/-- Source function `ObjectBuilder::specialPrefix` (objectbuilder.cpp). -/
def specialPrefix : QString := QStringLiteral "$"

/-- Source function `ObjectBuilder::readMembers` (objectbuilder.cpp). -/
def readMembers (ob : ObjectBuilder) : ObjectBuilder :=
  ob.root.foldl
    (fun ob it =>
      if it.1.startsWith (QStringLiteral "$") then ob
      else { ob with members := ob.members.insert it.1 it.2.toString })
    ob

/-- Source function `ObjectBuilder::setter` (objectbuilder.cpp). -/
def setter (toUpper : QChar → QChar) (name : QString) : QString :=
  let setterName := QStringLiteral "set" ++ name
  setterName.setCharAt 3 (toUpper (setterName.charAt 3))

/-- Source function `ObjectBuilder::writeProperties` (objectbuilder.cpp). -/
def writeProperties (env : Env) (withNotify : Bool) (ob : ObjectBuilder) : ObjectBuilder :=
  ob.members.foldl
    (fun ob it =>
      let ob := ob.put Stream.header
        [QStringLiteral "\tQ_PROPERTY(", it.2, QStringLiteral " ", it.1,
         QStringLiteral " READ ", it.1,
         QStringLiteral " WRITE ", setter env.toUpper it.1]
      let ob := if withNotify then
          ob.put Stream.header [QStringLiteral " NOTIFY ", it.1, QStringLiteral "Changed"]
        else ob
      ob.put Stream.header [QStringLiteral ")\n"])
    ob

/-- Source function `ObjectBuilder::writeReadDeclarations` (objectbuilder.cpp). -/
def writeReadDeclarations (ob : ObjectBuilder) : ObjectBuilder :=
  ob.members.foldl
    (fun ob it =>
      ob.put Stream.header
        [QStringLiteral "\t", it.2, QStringLiteral " ", it.1, QStringLiteral "() const;\n"])
    ob

/-- Source function `ObjectBuilder::writeWriteDeclarations` (objectbuilder.cpp). -/
def writeWriteDeclarations (env : Env) (ob : ObjectBuilder) : ObjectBuilder :=
  ob.members.foldl
    (fun ob it =>
      ob.put Stream.header
        [QStringLiteral "\tvoid ", setter env.toUpper it.1, QStringLiteral "(", it.2,
         QStringLiteral " ", it.1, QStringLiteral ");\n"])
    ob

/-- Source function `ObjectBuilder::writeNotifyDeclarations` (objectbuilder.cpp). -/
def writeNotifyDeclarations (ob : ObjectBuilder) : ObjectBuilder :=
  ob.members.foldl
    (fun ob it =>
      ob.put Stream.header
        [QStringLiteral "\tvoid ", it.1, QStringLiteral "Changed(", it.2,
         QStringLiteral " ", it.1, QStringLiteral ");\n"])
    ob

/-- Source function `ObjectBuilder::writeMemberDefinitions` (objectbuilder.cpp). -/
def writeMemberDefinitions (stream : Stream) (ob : ObjectBuilder) : ObjectBuilder :=
  ob.members.foldl
    (fun ob it =>
      ob.put stream [QStringLiteral "\t", it.2, QStringLiteral " _", it.1, QStringLiteral ";\n"])
    ob

/-- Source function `ObjectBuilder::writeReadDefinitions` (objectbuilder.cpp). -/
def writeReadDefinitions (asGadget : Bool) (ob : ObjectBuilder) : ObjectBuilder :=
  let pfx := if asGadget then QStringLiteral "d->_" else QStringLiteral "_"
  ob.members.foldl
    (fun ob it =>
      ob.put Stream.source
        [QStringLiteral "\n", it.2, QStringLiteral " ", ob.className, QStringLiteral "::", it.1,
         QStringLiteral "() const\n",
         QStringLiteral "\x7b\n",
         QStringLiteral "\treturn ", pfx, it.1, QStringLiteral ";\n",
         QStringLiteral "\x7d\n"])
    ob

/-- Source function `ObjectBuilder::writeWriteDefinitions` (objectbuilder.cpp). -/
def writeWriteDefinitions (env : Env) (asGadget : Bool) (ob : ObjectBuilder) : ObjectBuilder :=
  let pfx := if asGadget then QStringLiteral "d->_" else QStringLiteral "_"
  ob.members.foldl
    (fun ob it =>
      let ob := ob.put Stream.source
        [QStringLiteral "\nvoid ", ob.className, QStringLiteral "::", setter env.toUpper it.1,
         QStringLiteral "(", it.2, QStringLiteral " ", it.1, QStringLiteral ")\n",
         QStringLiteral "\x7b\n",
         QStringLiteral "\tif(", pfx, it.1, QStringLiteral " == ", it.1, QStringLiteral ")\n",
         QStringLiteral "\t\treturn;\n\n",
         QStringLiteral "\t", pfx, it.1, QStringLiteral " = ", it.1, QStringLiteral ";\n"]
      let ob := if !asGadget then
          ob.put Stream.source
            [QStringLiteral "\temit ", it.1, QStringLiteral "Changed(", it.1, QStringLiteral ");\n"]
        else ob
      ob.put Stream.source [QStringLiteral "\x7d\n"])
    ob

/-- Source function `ObjectBuilder::writeMemberCopyDefinitions` (objectbuilder.cpp). -/
def writeMemberCopyDefinitions (stream : Stream) (ob : ObjectBuilder) : ObjectBuilder :=
  ob.members.foldl
    (fun ob it =>
      ob.put stream
        [QStringLiteral "\t,_", it.1, QStringLiteral "(other._", it.1, QStringLiteral ")\n"])
    ob

/-- Source function `ObjectBuilder::writeDataClass` (objectbuilder.cpp). -/
def writeDataClass (ob : ObjectBuilder) : ObjectBuilder :=
  let name := ob.className ++ QStringLiteral "Data"
  let ob := ob.put Stream.source
    [QStringLiteral "class ", name, QStringLiteral " : public QSharedData\n",
     QStringLiteral "\x7b\n",
     QStringLiteral "public:\n",
     QStringLiteral "\t", name, QStringLiteral "();\n",
     QStringLiteral "\t", name, QStringLiteral "(const ", name, QStringLiteral " &other);\n\n"]
  let ob := writeMemberDefinitions Stream.source ob
  let ob := ob.put Stream.source
    [QStringLiteral "\x7d;\n\n",
     name, QStringLiteral "::", name, QStringLiteral "() :\n",
     QStringLiteral "\tQSharedData()\n",
     QStringLiteral "\x7b\x7d\n\n",
     name, QStringLiteral "::", name, QStringLiteral "(const ", name, QStringLiteral " &other) :\n",
     QStringLiteral "\tQSharedData(other)\n"]
  let ob := writeMemberCopyDefinitions Stream.source ob
  ob.put Stream.source [QStringLiteral "\x7b\x7d\n\n"]

/-- Source function `ObjectBuilder::generateApiObject` (objectbuilder.cpp). -/
def generateApiObject (env : Env) (ob : ObjectBuilder) : ObjectBuilder :=
  let ob := ob.qInfo [QStringLiteral "generating object:", ob.className]
  let includes := env.readIncludes ob.root
  let includes := includes ++ [QStringLiteral "QObject"]
  let includes := includes ++ [QStringLiteral "QString"]
  let ob := readMembers ob
  let parent := (ob.root.value (QStringLiteral "$parent")).toStringOr (QStringLiteral "QObject")
  -- write header
  let ob := ob.put Stream.header [env.writeIncludes includes]
  let ob := ob.put Stream.header
    [QStringLiteral "class ", ob.className, QStringLiteral " : public ", parent, QStringLiteral "\n",
     QStringLiteral "\x7b\n",
     QStringLiteral "\tQ_OBJECT\n\n"]
  let ob := writeProperties env true ob
  let ob := ob.put Stream.header
    [QStringLiteral "\npublic:\n",
     QStringLiteral "\tQ_INVOKABLE ", ob.className, QStringLiteral "(QObject *parent = nullptr);\n\n"]
  let ob := writeReadDeclarations ob
  let ob := ob.put Stream.header [QStringLiteral "\npublic Q_SLOTS:\n"]
  let ob := writeWriteDeclarations env ob
  let ob := ob.put Stream.header [QStringLiteral "\nQ_SIGNALS:\n"]
  let ob := writeNotifyDeclarations ob
  let ob := ob.put Stream.header [QStringLiteral "\nprivate:\n"]
  let ob := writeMemberDefinitions Stream.header ob
  let ob := ob.put Stream.header [QStringLiteral "\x7d;\n\n"]
  -- write source
  let ob := ob.put Stream.source
    [QStringLiteral "#include \"", ob.fileName, QStringLiteral ".h\"\n\n",
     ob.className, QStringLiteral "::", ob.className, QStringLiteral "(QObject *parent) :\n",
     QStringLiteral "\t", parent, QStringLiteral "(parent)\n",
     QStringLiteral "\x7b\x7d\n"]
  let ob := writeReadDefinitions false ob
  writeWriteDefinitions env false ob

/-- Source function `ObjectBuilder::generateApiGadget` (objectbuilder.cpp). -/
def generateApiGadget (env : Env) (ob : ObjectBuilder) : ObjectBuilder :=
  let ob := ob.qInfo [QStringLiteral "generating gadget:", ob.className]
  let includes := env.readIncludes ob.root
  let includes := includes ++ [QStringLiteral "QSharedDataPointer"]
  let includes := includes ++ [QStringLiteral "QString"]
  let ob := readMembers ob
  let parent := (ob.root.value (QStringLiteral "$parent")).toString
  -- write header
  let ob := ob.put Stream.header [env.writeIncludes includes]
  let ob := ob.put Stream.header [QStringLiteral "class ", ob.className, QStringLiteral "Data;\n"]
  let ob := if parent.isEmpty then
      ob.put Stream.header [QStringLiteral "class ", ob.className, QStringLiteral "\n"]
    else
      ob.put Stream.header
        [QStringLiteral "class ", ob.className, QStringLiteral " : public ", parent,
         QStringLiteral "\n"]
  let ob := ob.put Stream.header
    [QStringLiteral "\x7b\n",
     QStringLiteral "\tQ_GADGET\n\n"]
  let ob := writeProperties env false ob
  let ob := ob.put Stream.header
    [QStringLiteral "\npublic:\n",
     QStringLiteral "\t", ob.className, QStringLiteral "();\n",
     QStringLiteral "\t", ob.className, QStringLiteral "(const ", ob.className,
     QStringLiteral " &other);\n",
     QStringLiteral "\t~", ob.className, QStringLiteral "();\n\n"]
  let ob := writeReadDeclarations ob
  let ob := ob.put Stream.header [QStringLiteral "\n"]
  let ob := writeWriteDeclarations env ob
  let ob := ob.put Stream.header
    [QStringLiteral "\nprivate:\n",
     QStringLiteral "\t QSharedDataPointer<", ob.className, QStringLiteral "Data> d;\n",
     QStringLiteral "\x7d;\n\n"]
  -- write source
  let ob := ob.put Stream.source [QStringLiteral "#include \"", ob.fileName, QStringLiteral ".h\"\n\n"]
  let ob := writeDataClass ob
  let ob := ob.put Stream.source
    [ob.className, QStringLiteral "::", ob.className, QStringLiteral "() :\n"]
  let ob := if !parent.isEmpty then
      ob.put Stream.source [QStringLiteral "\t", parent, QStringLiteral "(),\n"]
    else ob
  let ob := ob.put Stream.source
    [QStringLiteral "\td(new ", ob.className, QStringLiteral "Data())\n",
     QStringLiteral "\x7b\x7d\n\n",
     ob.className, QStringLiteral "::", ob.className, QStringLiteral "(const ", ob.className,
     QStringLiteral " &other) :\n"]
  let ob := if !parent.isEmpty then
      ob.put Stream.source [QStringLiteral "\t", parent, QStringLiteral "(other),\n"]
    else ob
  let ob := ob.put Stream.source
    [QStringLiteral "\td(other.d)\n",
     QStringLiteral "\x7b\x7d\n\n",
     ob.className, QStringLiteral "::~", ob.className, QStringLiteral "() \x7b\x7d\n"]
  let ob := writeReadDefinitions true ob
  writeWriteDefinitions env true ob

/-- Source function `ObjectBuilder::build` (objectbuilder.cpp).  The first component is `Except.error` with the thrown
message when the function throws; the second is the state the call leaves. -/
def build (env : Env) (ob : ObjectBuilder) : Except QString Unit × ObjectBuilder :=
  if (ob.root.value (QStringLiteral "$type")).toString = QStringLiteral "object" then
    (Except.ok (), generateApiObject env ob)
  else if (ob.root.value (QStringLiteral "$type")).toString = QStringLiteral "gadget" then
    (Except.ok (), generateApiGadget env ob)
  else
    (Except.error (QStringLiteral "REST_API_OBJECTS must be either of type object or gadget"), ob)

/-! ## The emitted lines, as the specification words them

Each definition is the text of one line (or one block) the specification
describes for a member `m = (name, type)`; the mutator name is the one `setter`
derives.  They are compared with what the source writes. -/

namespace Spec

/-- The property binding of an entity:
`Q_PROPERTY(type name READ name WRITE setName NOTIFY nameChanged)`. -/
def propertyBinding (toUpper : QChar → QChar) (m : QString × QString) : QString :=
  QStringLiteral "\tQ_PROPERTY(" ++ m.2 ++ QStringLiteral " " ++ m.1
    ++ QStringLiteral " READ " ++ m.1
    ++ QStringLiteral " WRITE " ++ setter toUpper m.1
    ++ QStringLiteral " NOTIFY " ++ m.1 ++ QStringLiteral "Changed)\n"

/-- The property binding of a record, without a change-event clause:
`Q_PROPERTY(type name READ name WRITE setName)`. -/
def plainPropertyBinding (toUpper : QChar → QChar) (m : QString × QString) : QString :=
  QStringLiteral "\tQ_PROPERTY(" ++ m.2 ++ QStringLiteral " " ++ m.1
    ++ QStringLiteral " READ " ++ m.1
    ++ QStringLiteral " WRITE " ++ setter toUpper m.1 ++ QStringLiteral ")\n"

/-- The accessor declaration `type name() const;`. -/
def accessorDeclaration (m : QString × QString) : QString :=
  QStringLiteral "\t" ++ m.2 ++ QStringLiteral " " ++ m.1 ++ QStringLiteral "() const;\n"

/-- The mutator declaration `void setName(type name);`. -/
def mutatorDeclaration (toUpper : QChar → QChar) (m : QString × QString) : QString :=
  QStringLiteral "\tvoid " ++ setter toUpper m.1 ++ QStringLiteral "(" ++ m.2
    ++ QStringLiteral " " ++ m.1 ++ QStringLiteral ");\n"

/-- The change-event declaration `void nameChanged(type name);`. -/
def changeEventDeclaration (m : QString × QString) : QString :=
  QStringLiteral "\tvoid " ++ m.1 ++ QStringLiteral "Changed(" ++ m.2
    ++ QStringLiteral " " ++ m.1 ++ QStringLiteral ");\n"

/-- The private field declaration `type _name;`. -/
def fieldDeclaration (m : QString × QString) : QString :=
  QStringLiteral "\t" ++ m.2 ++ QStringLiteral " _" ++ m.1 ++ QStringLiteral ";\n"

/-- The initialiser `,_name(other._name)` of the copy constructor of the data class. -/
def copyInitialiser (m : QString × QString) : QString :=
  QStringLiteral "\t,_" ++ m.1 ++ QStringLiteral "(other._" ++ m.1 ++ QStringLiteral ")\n"

/-- The accessor definition: `type className::name() const` returning the field
`name` behind the storage prefix (`_` for an entity, `d->_` for a record). -/
def accessorDefinition (className storage : QString) (m : QString × QString) : QString :=
  QStringLiteral "\n" ++ m.2 ++ QStringLiteral " " ++ className ++ QStringLiteral "::" ++ m.1
    ++ QStringLiteral "() const\n"
    ++ QStringLiteral "\x7b\n"
    ++ QStringLiteral "\treturn " ++ storage ++ m.1 ++ QStringLiteral ";\n"
    ++ QStringLiteral "\x7d\n"

/-- The equality short-circuit of a mutator: `if(<storage>name == name) return;`. -/
def guard (storage name : QString) : QString :=
  QStringLiteral "\tif(" ++ storage ++ name ++ QStringLiteral " == " ++ name
    ++ QStringLiteral ")\n" ++ QStringLiteral "\t\treturn;\n\n"

/-- The assignment of a mutator: `<storage>name = name;`. -/
def assignment (storage name : QString) : QString :=
  QStringLiteral "\t" ++ storage ++ name ++ QStringLiteral " = " ++ name ++ QStringLiteral ";\n"

/-- The notification of a mutator: `emit nameChanged(name);`. -/
def notification (name : QString) : QString :=
  QStringLiteral "\temit " ++ name ++ QStringLiteral "Changed(" ++ name ++ QStringLiteral ");\n"

/-- The mutator definition `void className::setName(type name)`: its body is the
guard, then the assignment, then (only when `notify`) the notification. -/
def mutatorDefinition (toUpper : QChar → QChar) (className storage : QString) (notify : Bool)
    (m : QString × QString) : QString :=
  QStringLiteral "\nvoid " ++ className ++ QStringLiteral "::" ++ setter toUpper m.1
    ++ QStringLiteral "(" ++ m.2 ++ QStringLiteral " " ++ m.1 ++ QStringLiteral ")\n"
    ++ QStringLiteral "\x7b\n"
    ++ guard storage m.1
    ++ assignment storage m.1
    ++ (if notify then notification m.1 else [])
    ++ QStringLiteral "\x7d\n"

end Spec

/-! ## Auxiliary definitions used to state the properties -/

/-- The loop of `readMembers`, on the member collection alone. -/
def collect (root : QJsonObject) (members : Members) : Members :=
  root.foldl
    (fun m it =>
      if it.1.startsWith (QStringLiteral "$") then m else m.insert it.1 it.2.toString)
    members

/-! ## Sample inputs -/

/-- The state of a builder on which `build` has not run yet: the caller has set
the schema and the two names, nothing has been written or collected. -/
def ObjectBuilder.create (root : QJsonObject) (className fileName : QString) : ObjectBuilder :=
  { root := root, className := className, fileName := fileName,
    header := [], source := [], members := [], info := [] }

/-- A sample environment: the schema brings no includes of its own, every include is
written as one `#include <...>` line, and the upper-case map is the one of ASCII. -/
def sampleEnv : Env :=
  { readIncludes := fun _ => []
    writeIncludes := fun includes =>
      (includes.map (fun i => QStringLiteral "#include <" ++ i ++ QStringLiteral ">\n")).flatten
        ++ QStringLiteral "\n"
    toUpper := Char.toUpper }

/-- The entity example of the specification:
`\x7b "$type": "object", "$parent": "Base", "name": "QString" \x7d`. -/
def userSchema : QJsonObject :=
  [(QStringLiteral "$type", QJsonValue.String (QStringLiteral "object")),
   (QStringLiteral "$parent", QJsonValue.String (QStringLiteral "Base")),
   (QStringLiteral "name", QJsonValue.String (QStringLiteral "QString"))]

/-- The record example of the specification: `\x7b "$type": "gadget", "id": "int" \x7d`. -/
def recordSchema : QJsonObject :=
  [(QStringLiteral "$type", QJsonValue.String (QStringLiteral "gadget")),
   (QStringLiteral "id", QJsonValue.String (QStringLiteral "int"))]

/-- An environment with arbitrary include services and the ASCII upper-case map
(which is `QChar::toUpper` on the ASCII letters of the examples). -/
def asciiEnv (readIncludes : QJsonObject → List QString)
    (writeIncludes : List QString → QString) : Env :=
  { readIncludes := readIncludes, writeIncludes := writeIncludes, toUpper := Char.toUpper }

/-- The builder of the entity example, `className = "User"`. -/
def userBuilder (fileName : QString) : ObjectBuilder :=
  ObjectBuilder.create userSchema (QStringLiteral "User") fileName

/-- The builder of the record example, `className = "Record"`. -/
def recordBuilder (fileName : QString) : ObjectBuilder :=
  ObjectBuilder.create recordSchema (QStringLiteral "Record") fileName

/-- The number of positions of `text` at which `pattern` occurs. -/
def occurrences (pattern text : QString) : Nat :=
  (text.tails.filter (fun t => pattern.isPrefixOf t)).length

/-- The header of the entity example, after the include lines. -/
def userHeader : QString :=
  QStringLiteral "class User : public Base\n\x7b\n\tQ_OBJECT\n\n\tQ_PROPERTY(QString name READ name WRITE setName NOTIFY nameChanged)\n\npublic:\n\tQ_INVOKABLE User(QObject *parent = nullptr);\n\n\tQString name() const;\n\npublic Q_SLOTS:\n\tvoid setName(QString name);\n\nQ_SIGNALS:\n\tvoid nameChanged(QString name);\n\nprivate:\n\tQString _name;\n\x7d;\n\n"

/-- The body of the entity example, after its include line. -/
def userBody : QString :=
  QStringLiteral "User::User(QObject *parent) :\n\tBase(parent)\n\x7b\x7d\n\nQString User::name() const\n\x7b\n\treturn _name;\n\x7d\n\nvoid User::setName(QString name)\n\x7b\n\tif(_name == name)\n\t\treturn;\n\n\t_name = name;\n\temit nameChanged(name);\n\x7d\n"

/-- The header of the record example, after the include lines. -/
def recordHeader : QString :=
  QStringLiteral "class RecordData;\nclass Record\n\x7b\n\tQ_GADGET\n\n\tQ_PROPERTY(int id READ id WRITE setId)\n\npublic:\n\tRecord();\n\tRecord(const Record &other);\n\t~Record();\n\n\tint id() const;\n\n\tvoid setId(int id);\n\nprivate:\n\t QSharedDataPointer<RecordData> d;\n\x7d;\n\n"

/-- The body of the record example, after its include line. -/
def recordBody : QString :=
  QStringLiteral "class RecordData : public QSharedData\n\x7b\npublic:\n\tRecordData();\n\tRecordData(const RecordData &other);\n\n\tint _id;\n\x7d;\n\nRecordData::RecordData() :\n\tQSharedData()\n\x7b\x7d\n\nRecordData::RecordData(const RecordData &other) :\n\tQSharedData(other)\n\t,_id(other._id)\n\x7b\x7d\n\nRecord::Record() :\n\td(new RecordData())\n\x7b\x7d\n\nRecord::Record(const Record &other) :\n\td(other.d)\n\x7b\x7d\n\nRecord::~Record() \x7b\x7d\n\nint Record::id() const\n\x7b\n\treturn d->_id;\n\x7d\n\nvoid Record::setId(int id)\n\x7b\n\tif(d->_id == id)\n\t\treturn;\n\n\td->_id = id;\n\x7d\n"

/-- An entity schema declaring the two members `Name` and `name`:
`\x7b "$type": "object", "Name": "QString", "name": "QString" \x7d`. -/
def nameClashSchema : QJsonObject :=
  [(QStringLiteral "$type", QJsonValue.String (QStringLiteral "object")),
   (QStringLiteral "Name", QJsonValue.String (QStringLiteral "QString")),
   (QStringLiteral "name", QJsonValue.String (QStringLiteral "QString"))]

/-! ## The blocks of a record body, as the specification words them -/

namespace Spec

/-- The data class of a record: a class named `className` followed by `Data`, deriving
from `QSharedData`, holding one field per member, with a default constructor and a
copy constructor that copies every field. -/
def dataClass (className : QString) (M : Members) : QString :=
  QStringLiteral "class " ++ (className ++ QStringLiteral "Data")
    ++ QStringLiteral " : public QSharedData\n"
    ++ QStringLiteral "\x7b\n"
    ++ QStringLiteral "public:\n"
    ++ QStringLiteral "\t" ++ (className ++ QStringLiteral "Data") ++ QStringLiteral "();\n"
    ++ QStringLiteral "\t" ++ (className ++ QStringLiteral "Data") ++ QStringLiteral "(const "
    ++ (className ++ QStringLiteral "Data") ++ QStringLiteral " &other);\n\n"
    ++ (M.map fieldDeclaration).flatten
    ++ QStringLiteral "\x7d;\n\n"
    ++ (className ++ QStringLiteral "Data") ++ QStringLiteral "::"
    ++ (className ++ QStringLiteral "Data") ++ QStringLiteral "() :\n"
    ++ QStringLiteral "\tQSharedData()\n"
    ++ QStringLiteral "\x7b\x7d\n\n"
    ++ (className ++ QStringLiteral "Data") ++ QStringLiteral "::"
    ++ (className ++ QStringLiteral "Data") ++ QStringLiteral "(const "
    ++ (className ++ QStringLiteral "Data") ++ QStringLiteral " &other) :\n"
    ++ QStringLiteral "\tQSharedData(other)\n"
    ++ (M.map copyInitialiser).flatten
    ++ QStringLiteral "\x7b\x7d\n\n"

end Spec

/-! ## The generated mutator as a program

The body `writeWriteDefinitions` emits is made of three kinds of statement.  They
are given the meaning the specification describes (4.3): the guard returns when
the stored value equals the argument, the assignment stores the argument, the
`emit` raises the change event with the argument. -/

/-- A statement of a generated mutator body; `argument` is the name of the
parameter of the mutator. -/
inductive Statement where
  /-- The guard `if(field == argument) return;`. -/
  | returnIfEqual (field argument : QString)
  /-- The assignment `field = argument;`. -/
  | assign (field argument : QString)
  /-- The notification `emit signal(argument);`. -/
  | emit (signal argument : QString)

/-- The text of a statement, as `writeWriteDefinitions` writes it. -/
def Statement.render : Statement → QString
  | Statement.returnIfEqual field argument =>
    QStringLiteral "\tif(" ++ field ++ QStringLiteral " == " ++ argument ++ QStringLiteral ")\n"
      ++ QStringLiteral "\t\treturn;\n\n"
  | Statement.assign field argument =>
    QStringLiteral "\t" ++ field ++ QStringLiteral " = " ++ argument ++ QStringLiteral ";\n"
  | Statement.emit signal argument =>
    QStringLiteral "\temit " ++ signal ++ QStringLiteral "(" ++ argument ++ QStringLiteral ");\n"

/-- The body of the mutator of the member `name`: guard, assignment and, for an
entity (`notify`), the notification. -/
def mutatorBody (storage name : QString) (notify : Bool) : List Statement :=
  [Statement.returnIfEqual (storage ++ name) name, Statement.assign (storage ++ name) name]
    ++ (if notify then [Statement.emit (name ++ QStringLiteral "Changed") name] else [])

/-- An instance of a generated class: the values stored in its fields and the
change events it has raised so far, oldest first. -/
structure Instance (V : Type) where
  fields : QString → V
  events : List (QString × V)

/-- One call of a mutator with the argument value `v`: the statements run in
order, and the guard ends the call when the stored value equals `v`. -/
def run {V : Type} [DecidableEq V] : List Statement → V → Instance V → Instance V
  | [], _, σ => σ
  | Statement.returnIfEqual field _ :: rest, v, σ =>
    if σ.fields field = v then σ else run rest v σ
  | Statement.assign field _ :: rest, v, σ =>
    run rest v { σ with fields := fun f => if f = field then v else σ.fields f }
  | Statement.emit signal _ :: rest, v, σ =>
    run rest v { σ with events := σ.events ++ [(signal, v)] }

/-! ## Basic facts about the state-passing primitives -/

theorem foldl_append_flatten (segments : List QString) (acc : QString) :
    segments.foldl (fun acc s => acc ++ s) acc = acc ++ segments.flatten := by
  induction segments generalizing acc with
  | nil => simp
  | cons s rest ih => simp [ih, List.append_assoc]

theorem put_header (ob : ObjectBuilder) (segments : List QString) :
    ob.put Stream.header segments = { ob with header := ob.header ++ segments.flatten } := by
  simp [ObjectBuilder.put, foldl_append_flatten]

theorem put_source (ob : ObjectBuilder) (segments : List QString) :
    ob.put Stream.source segments = { ob with source := ob.source ++ segments.flatten } := by
  simp [ObjectBuilder.put, foldl_append_flatten]

/-- A loop over the members whose body only appends to the header appends the
texts of the members in iteration order. -/
theorem foldl_header {α : Type} (step : ObjectBuilder → α → ObjectBuilder)
    (text : QString → α → QString)
    (hstep : ∀ ob a, step ob a = { ob with header := ob.header ++ text ob.className a })
    (l : List α) (ob : ObjectBuilder) :
    l.foldl step ob
      = { ob with header := ob.header ++ (l.map (text ob.className)).flatten } := by
  induction l generalizing ob with
  | nil => simp
  | cons a rest ih => simp [ih, hstep, List.append_assoc]

/-- A loop over the members whose body only appends to the source appends the
texts of the members in iteration order. -/
theorem foldl_source {α : Type} (step : ObjectBuilder → α → ObjectBuilder)
    (text : QString → α → QString)
    (hstep : ∀ ob a, step ob a = { ob with source := ob.source ++ text ob.className a })
    (l : List α) (ob : ObjectBuilder) :
    l.foldl step ob
      = { ob with source := ob.source ++ (l.map (text ob.className)).flatten } := by
  induction l generalizing ob with
  | nil => simp
  | cons a rest ih => simp [ih, hstep, List.append_assoc]

/-! ## The schema reader -/

theorem foldl_members (l : QJsonObject) (ob : ObjectBuilder) :
    l.foldl
        (fun ob it =>
          if it.1.startsWith (QStringLiteral "$") then ob
          else { ob with members := ob.members.insert it.1 it.2.toString })
        ob
      = { ob with members := collect l ob.members } := by
  unfold collect
  induction l generalizing ob with
  | nil => simp
  | cons it rest ih =>
    by_cases h : it.1.startsWith (QStringLiteral "$") = true
    · simp [List.foldl_cons, h, ih]
    · simp [List.foldl_cons, h, ih]

theorem readMembers_eq (ob : ObjectBuilder) :
    readMembers ob = { ob with members := collect ob.root ob.members } :=
  foldl_members ob.root ob

theorem insert_of_not_mem (m : Members) (key value : QString)
    (h : key ∉ m.map Prod.fst) : m.insert key value = m ++ [(key, value)] := by
  induction m with
  | nil => simp [Members.insert]
  | cons a rest ih =>
    obtain ⟨k, v⟩ := a
    simp only [List.map_cons, List.mem_cons, not_or] at h
    have hk : ¬ k = key := fun e => h.1 e.symm
    simp [Members.insert, hk, ih h.2]

theorem keys_insert (m : Members) (key value : QString) :
    ∀ k, k ∈ (m.insert key value).map Prod.fst ↔ k = key ∨ k ∈ m.map Prod.fst := by
  induction m with
  | nil => simp [Members.insert]
  | cons a rest ih =>
    obtain ⟨k0, v0⟩ := a
    intro k
    by_cases hk : k0 = key
    · subst hk
      simp [Members.insert]
    · simp only [Members.insert, hk, if_false, List.map_cons, List.mem_cons, ih k]
      tauto

/-- Replacing or adding an entry keeps the names of the collection pairwise distinct. -/
theorem nodup_insert (m : Members) (key value : QString)
    (h : (m.map Prod.fst).Nodup) : ((m.insert key value).map Prod.fst).Nodup := by
  induction m with
  | nil => simp [Members.insert]
  | cons a rest ih =>
    obtain ⟨k0, v0⟩ := a
    simp only [List.map_cons, List.nodup_cons] at h
    by_cases hk : k0 = key
    · simp [Members.insert, hk] at h ⊢
      subst hk
      exact h
    · simp only [Members.insert, hk, if_false, List.map_cons, List.nodup_cons]
      refine ⟨?_, ih h.2⟩
      rw [keys_insert]
      rintro (e | e)
      · exact hk e
      · exact h.1 e

theorem nodup_collect (root : QJsonObject) (m : Members)
    (h : (m.map Prod.fst).Nodup) : ((collect root m).map Prod.fst).Nodup := by
  unfold collect
  induction root generalizing m with
  | nil => simpa using h
  | cons it rest ih =>
    simp only [List.foldl_cons]
    split
    · exact ih m h
    · exact ih _ (nodup_insert m _ _ h)

/-- On a schema with pairwise distinct keys, none of them in the collection yet,
the loop appends the member entries in the iteration order of the schema. -/
theorem collect_eq (root : QJsonObject) (m : Members)
    (hkeys : (root.map Prod.fst).Nodup)
    (hnew : ∀ k ∈ root.map Prod.fst, k ∉ m.map Prod.fst) :
    collect root m
      = m ++ (root.filter (fun it => !it.1.startsWith (QStringLiteral "$"))).map
          (fun it => (it.1, it.2.toString)) := by
  unfold collect
  induction root generalizing m with
  | nil => simp
  | cons it rest ih =>
    simp only [List.map_cons, List.nodup_cons] at hkeys
    have hrest : ∀ k ∈ rest.map Prod.fst, k ∉ m.map Prod.fst :=
      fun k hk => hnew k (by simp only [List.map_cons, List.mem_cons]; exact Or.inr hk)
    by_cases h : it.1.startsWith (QStringLiteral "$") = true
    · simp only [List.foldl_cons, h, if_true]
      rw [ih m hkeys.2 hrest]
      simp [List.filter_cons, h]
    · have hit : it.1 ∉ m.map Prod.fst :=
        hnew it.1 (by simp only [List.map_cons, List.mem_cons, true_or])
      simp only [List.foldl_cons, if_neg h]
      rw [insert_of_not_mem m _ _ hit, ih _ hkeys.2]
      · simp [List.filter_cons, h]
      · intro k hk hmem
        rw [List.map_append, List.mem_append] at hmem
        rcases hmem with hmem | hmem
        · exact hrest k hk hmem
        · simp only [List.map_cons, List.map_nil, List.mem_singleton] at hmem
          subst hmem
          exact hkeys.1 hk

theorem value_of_mem (root : QJsonObject) (hkeys : (root.map Prod.fst).Nodup)
    (k : QString) (v : QJsonValue) (h : (k, v) ∈ root) : root.value k = v := by
  induction root with
  | nil => simp at h
  | cons it rest ih =>
    obtain ⟨k0, v0⟩ := it
    simp only [List.map_cons, List.nodup_cons] at hkeys
    simp only [List.mem_cons, Prod.mk.injEq] at h
    rcases h with ⟨rfl, rfl⟩ | h
    · simp [QJsonObject.value]
    · have hne : ¬ k0 = k := by
        rintro rfl
        exact hkeys.1 (List.mem_map_of_mem Prod.fst h)
      simp [QJsonObject.value, hne, ih hkeys.2 h]

/-! ## The text emission helpers -/

theorem writeProperties_notify (env : Env) (ob : ObjectBuilder) :
    writeProperties env true ob
      = { ob with header := ob.header
            ++ (ob.members.map (Spec.propertyBinding env.toUpper)).flatten } := by
  have e : QStringLiteral "Changed)\n" = QStringLiteral "Changed" ++ QStringLiteral ")\n" := rfl
  unfold writeProperties
  exact foldl_header _ (fun _ m => Spec.propertyBinding env.toUpper m)
    (fun ob a => by simp [put_header, Spec.propertyBinding, e, List.append_assoc]) _ ob

theorem writeProperties_plain (env : Env) (ob : ObjectBuilder) :
    writeProperties env false ob
      = { ob with header := ob.header
            ++ (ob.members.map (Spec.plainPropertyBinding env.toUpper)).flatten } := by
  unfold writeProperties
  exact foldl_header _ (fun _ m => Spec.plainPropertyBinding env.toUpper m)
    (fun ob a => by simp [put_header, Spec.plainPropertyBinding, List.append_assoc]) _ ob

theorem writeReadDeclarations_eq (ob : ObjectBuilder) :
    writeReadDeclarations ob
      = { ob with header := ob.header
            ++ (ob.members.map Spec.accessorDeclaration).flatten } := by
  unfold writeReadDeclarations
  exact foldl_header _ (fun _ m => Spec.accessorDeclaration m)
    (fun ob a => by simp [put_header, Spec.accessorDeclaration, List.append_assoc]) _ ob

theorem writeWriteDeclarations_eq (env : Env) (ob : ObjectBuilder) :
    writeWriteDeclarations env ob
      = { ob with header := ob.header
            ++ (ob.members.map (Spec.mutatorDeclaration env.toUpper)).flatten } := by
  unfold writeWriteDeclarations
  exact foldl_header _ (fun _ m => Spec.mutatorDeclaration env.toUpper m)
    (fun ob a => by simp [put_header, Spec.mutatorDeclaration, List.append_assoc]) _ ob

theorem writeNotifyDeclarations_eq (ob : ObjectBuilder) :
    writeNotifyDeclarations ob
      = { ob with header := ob.header
            ++ (ob.members.map Spec.changeEventDeclaration).flatten } := by
  unfold writeNotifyDeclarations
  exact foldl_header _ (fun _ m => Spec.changeEventDeclaration m)
    (fun ob a => by simp [put_header, Spec.changeEventDeclaration, List.append_assoc]) _ ob

theorem writeMemberDefinitions_header (ob : ObjectBuilder) :
    writeMemberDefinitions Stream.header ob
      = { ob with header := ob.header ++ (ob.members.map Spec.fieldDeclaration).flatten } := by
  unfold writeMemberDefinitions
  exact foldl_header _ (fun _ m => Spec.fieldDeclaration m)
    (fun ob a => by simp [put_header, Spec.fieldDeclaration, List.append_assoc]) _ ob

theorem writeMemberDefinitions_source (ob : ObjectBuilder) :
    writeMemberDefinitions Stream.source ob
      = { ob with source := ob.source ++ (ob.members.map Spec.fieldDeclaration).flatten } := by
  unfold writeMemberDefinitions
  exact foldl_source _ (fun _ m => Spec.fieldDeclaration m)
    (fun ob a => by simp [put_source, Spec.fieldDeclaration, List.append_assoc]) _ ob

theorem writeMemberCopyDefinitions_source (ob : ObjectBuilder) :
    writeMemberCopyDefinitions Stream.source ob
      = { ob with source := ob.source ++ (ob.members.map Spec.copyInitialiser).flatten } := by
  unfold writeMemberCopyDefinitions
  exact foldl_source _ (fun _ m => Spec.copyInitialiser m)
    (fun ob a => by simp [put_source, Spec.copyInitialiser, List.append_assoc]) _ ob

theorem writeReadDefinitions_eq (asGadget : Bool) (ob : ObjectBuilder) :
    writeReadDefinitions asGadget ob
      = { ob with source := ob.source
            ++ (ob.members.map (Spec.accessorDefinition ob.className
                  (if asGadget then QStringLiteral "d->_" else QStringLiteral "_"))).flatten } := by
  unfold writeReadDefinitions
  exact foldl_source _
    (fun cn m => Spec.accessorDefinition cn
      (if asGadget then QStringLiteral "d->_" else QStringLiteral "_") m)
    (fun ob a => by simp [put_source, Spec.accessorDefinition, List.append_assoc]) _ ob

theorem writeWriteDefinitions_eq (env : Env) (asGadget : Bool) (ob : ObjectBuilder) :
    writeWriteDefinitions env asGadget ob
      = { ob with source := ob.source
            ++ (ob.members.map (Spec.mutatorDefinition env.toUpper ob.className
                  (if asGadget then QStringLiteral "d->_" else QStringLiteral "_")
                  (!asGadget))).flatten } := by
  unfold writeWriteDefinitions
  refine foldl_source _
    (fun cn m => Spec.mutatorDefinition env.toUpper cn
      (if asGadget then QStringLiteral "d->_" else QStringLiteral "_") (!asGadget) m)
    (fun ob a => ?_) _ ob
  cases asGadget <;>
    simp [put_source, Spec.mutatorDefinition, Spec.guard, Spec.assignment, Spec.notification,
      List.append_assoc]

/-! ## The two generators, in closed form -/

/-- The state `generateApiObject` leaves: both streams have grown by the texts
below, the member collection has been read, one message has been logged. -/
theorem generateApiObject_eq (env : Env) (ob : ObjectBuilder) :
    generateApiObject env ob
      = { root := ob.root, className := ob.className, fileName := ob.fileName,
          header := ob.header
            ++ env.writeIncludes
                (env.readIncludes ob.root ++ [QStringLiteral "QObject"] ++ [QStringLiteral "QString"])
            ++ QStringLiteral "class " ++ ob.className ++ QStringLiteral " : public "
            ++ (ob.root.value (QStringLiteral "$parent")).toStringOr (QStringLiteral "QObject")
            ++ QStringLiteral "\n" ++ QStringLiteral "\x7b\n" ++ QStringLiteral "\tQ_OBJECT\n\n"
            ++ ((collect ob.root ob.members).map (Spec.propertyBinding env.toUpper)).flatten
            ++ QStringLiteral "\npublic:\n"
            ++ QStringLiteral "\tQ_INVOKABLE " ++ ob.className
            ++ QStringLiteral "(QObject *parent = nullptr);\n\n"
            ++ ((collect ob.root ob.members).map Spec.accessorDeclaration).flatten
            ++ QStringLiteral "\npublic Q_SLOTS:\n"
            ++ ((collect ob.root ob.members).map (Spec.mutatorDeclaration env.toUpper)).flatten
            ++ QStringLiteral "\nQ_SIGNALS:\n"
            ++ ((collect ob.root ob.members).map Spec.changeEventDeclaration).flatten
            ++ QStringLiteral "\nprivate:\n"
            ++ ((collect ob.root ob.members).map Spec.fieldDeclaration).flatten
            ++ QStringLiteral "\x7d;\n\n",
          source := ob.source
            ++ QStringLiteral "#include \"" ++ ob.fileName ++ QStringLiteral ".h\"\n\n"
            ++ ob.className ++ QStringLiteral "::" ++ ob.className
            ++ QStringLiteral "(QObject *parent) :\n"
            ++ QStringLiteral "\t"
            ++ (ob.root.value (QStringLiteral "$parent")).toStringOr (QStringLiteral "QObject")
            ++ QStringLiteral "(parent)\n"
            ++ QStringLiteral "\x7b\x7d\n"
            ++ ((collect ob.root ob.members).map
                  (Spec.accessorDefinition ob.className (QStringLiteral "_"))).flatten
            ++ ((collect ob.root ob.members).map
                  (Spec.mutatorDefinition env.toUpper ob.className (QStringLiteral "_") true)).flatten,
          members := collect ob.root ob.members,
          info := ob.info ++ [[QStringLiteral "generating object:", ob.className]] } := by
  simp [generateApiObject, ObjectBuilder.qInfo, readMembers_eq, put_header, put_source,
    writeProperties_notify, writeReadDeclarations_eq, writeWriteDeclarations_eq,
    writeNotifyDeclarations_eq, writeMemberDefinitions_header, writeReadDefinitions_eq,
    writeWriteDefinitions_eq, List.append_assoc]

/-- The state `generateApiGadget` leaves. -/
theorem generateApiGadget_eq (env : Env) (ob : ObjectBuilder) :
    generateApiGadget env ob
      = { root := ob.root, className := ob.className, fileName := ob.fileName,
          header := ob.header
            ++ env.writeIncludes
                (env.readIncludes ob.root ++ [QStringLiteral "QSharedDataPointer"]
                  ++ [QStringLiteral "QString"])
            ++ QStringLiteral "class " ++ ob.className ++ QStringLiteral "Data;\n"
            ++ (if (ob.root.value (QStringLiteral "$parent")).toString.isEmpty then
                  QStringLiteral "class " ++ ob.className ++ QStringLiteral "\n"
                else
                  QStringLiteral "class " ++ ob.className ++ QStringLiteral " : public "
                    ++ (ob.root.value (QStringLiteral "$parent")).toString ++ QStringLiteral "\n")
            ++ QStringLiteral "\x7b\n" ++ QStringLiteral "\tQ_GADGET\n\n"
            ++ ((collect ob.root ob.members).map (Spec.plainPropertyBinding env.toUpper)).flatten
            ++ QStringLiteral "\npublic:\n"
            ++ QStringLiteral "\t" ++ ob.className ++ QStringLiteral "();\n"
            ++ QStringLiteral "\t" ++ ob.className ++ QStringLiteral "(const " ++ ob.className
            ++ QStringLiteral " &other);\n"
            ++ QStringLiteral "\t~" ++ ob.className ++ QStringLiteral "();\n\n"
            ++ ((collect ob.root ob.members).map Spec.accessorDeclaration).flatten
            ++ QStringLiteral "\n"
            ++ ((collect ob.root ob.members).map (Spec.mutatorDeclaration env.toUpper)).flatten
            ++ QStringLiteral "\nprivate:\n"
            ++ QStringLiteral "\t QSharedDataPointer<" ++ ob.className ++ QStringLiteral "Data> d;\n"
            ++ QStringLiteral "\x7d;\n\n",
          source := ob.source
            ++ QStringLiteral "#include \"" ++ ob.fileName ++ QStringLiteral ".h\"\n\n"
            ++ QStringLiteral "class " ++ (ob.className ++ QStringLiteral "Data")
            ++ QStringLiteral " : public QSharedData\n"
            ++ QStringLiteral "\x7b\n"
            ++ QStringLiteral "public:\n"
            ++ QStringLiteral "\t" ++ (ob.className ++ QStringLiteral "Data") ++ QStringLiteral "();\n"
            ++ QStringLiteral "\t" ++ (ob.className ++ QStringLiteral "Data")
            ++ QStringLiteral "(const " ++ (ob.className ++ QStringLiteral "Data")
            ++ QStringLiteral " &other);\n\n"
            ++ ((collect ob.root ob.members).map Spec.fieldDeclaration).flatten
            ++ QStringLiteral "\x7d;\n\n"
            ++ (ob.className ++ QStringLiteral "Data") ++ QStringLiteral "::"
            ++ (ob.className ++ QStringLiteral "Data") ++ QStringLiteral "() :\n"
            ++ QStringLiteral "\tQSharedData()\n"
            ++ QStringLiteral "\x7b\x7d\n\n"
            ++ (ob.className ++ QStringLiteral "Data") ++ QStringLiteral "::"
            ++ (ob.className ++ QStringLiteral "Data") ++ QStringLiteral "(const "
            ++ (ob.className ++ QStringLiteral "Data") ++ QStringLiteral " &other) :\n"
            ++ QStringLiteral "\tQSharedData(other)\n"
            ++ ((collect ob.root ob.members).map Spec.copyInitialiser).flatten
            ++ QStringLiteral "\x7b\x7d\n\n"
            ++ ob.className ++ QStringLiteral "::" ++ ob.className ++ QStringLiteral "() :\n"
            ++ (if (ob.root.value (QStringLiteral "$parent")).toString.isEmpty then []
                else QStringLiteral "\t" ++ (ob.root.value (QStringLiteral "$parent")).toString
                  ++ QStringLiteral "(),\n")
            ++ QStringLiteral "\td(new " ++ ob.className ++ QStringLiteral "Data())\n"
            ++ QStringLiteral "\x7b\x7d\n\n"
            ++ ob.className ++ QStringLiteral "::" ++ ob.className ++ QStringLiteral "(const "
            ++ ob.className ++ QStringLiteral " &other) :\n"
            ++ (if (ob.root.value (QStringLiteral "$parent")).toString.isEmpty then []
                else QStringLiteral "\t" ++ (ob.root.value (QStringLiteral "$parent")).toString
                  ++ QStringLiteral "(other),\n")
            ++ QStringLiteral "\td(other.d)\n"
            ++ QStringLiteral "\x7b\x7d\n\n"
            ++ ob.className ++ QStringLiteral "::~" ++ ob.className
            ++ QStringLiteral "() \x7b\x7d\n"
            ++ ((collect ob.root ob.members).map
                  (Spec.accessorDefinition ob.className (QStringLiteral "d->_"))).flatten
            ++ ((collect ob.root ob.members).map
                  (Spec.mutatorDefinition env.toUpper ob.className (QStringLiteral "d->_")
                    false)).flatten,
          members := collect ob.root ob.members,
          info := ob.info ++ [[QStringLiteral "generating gadget:", ob.className]] } := by
  cases h : (ob.root.value (QStringLiteral "$parent")).toString.isEmpty <;>
  simp [generateApiGadget, writeDataClass, ObjectBuilder.qInfo, readMembers_eq, h,
    put_header, put_source,
    writeProperties_plain, writeReadDeclarations_eq, writeWriteDeclarations_eq,
    writeMemberDefinitions_source, writeMemberCopyDefinitions_source, writeReadDefinitions_eq,
    writeWriteDefinitions_eq, List.append_assoc]

/-! ## The variant selector (`build`) -/

theorem build_object (env : Env) (ob : ObjectBuilder)
    (h : (ob.root.value (QStringLiteral "$type")).toString = QStringLiteral "object") :
    build env ob = (Except.ok (), generateApiObject env ob) := by
  unfold build
  rw [if_pos h]

theorem build_gadget (env : Env) (ob : ObjectBuilder)
    (h1 : (ob.root.value (QStringLiteral "$type")).toString ≠ QStringLiteral "object")
    (h2 : (ob.root.value (QStringLiteral "$type")).toString = QStringLiteral "gadget") :
    build env ob = (Except.ok (), generateApiGadget env ob) := by
  unfold build
  rw [if_neg h1, if_pos h2]

theorem build_other (env : Env) (ob : ObjectBuilder)
    (h1 : (ob.root.value (QStringLiteral "$type")).toString ≠ QStringLiteral "object")
    (h2 : (ob.root.value (QStringLiteral "$type")).toString ≠ QStringLiteral "gadget") :
    build env ob
      = (Except.error (QStringLiteral "REST_API_OBJECTS must be either of type object or gadget"),
         ob) := by
  unfold build
  rw [if_neg h1, if_neg h2]

/-- C1. `build` throws exactly when the `$type` directive, read as a string, is
neither `"object"` nor `"gadget"`, and returns normally exactly when it is one of
the two; in particular it throws when `$type` is absent, when it is not a
string, and when it differs from a recognised value only in case. -/
theorem build_fails_iff (env : Env) (ob : ObjectBuilder) :
    ((∃ e, (build env ob).1 = Except.error e) ↔
        ((ob.root.value (QStringLiteral "$type")).toString ≠ QStringLiteral "object" ∧
         (ob.root.value (QStringLiteral "$type")).toString ≠ QStringLiteral "gadget")) ∧
    ((build env ob).1 = Except.ok () ↔
        ((ob.root.value (QStringLiteral "$type")).toString = QStringLiteral "object" ∨
         (ob.root.value (QStringLiteral "$type")).toString = QStringLiteral "gadget")) ∧
    (∀ className fileName : QString,
        ∃ e, (build env (ObjectBuilder.create [] className fileName)).1 = Except.error e) ∧
    (∀ className fileName : QString,
        ∃ e, (build env (ObjectBuilder.create
          [(QStringLiteral "$type", QJsonValue.Double 1)] className fileName)).1
            = Except.error e) ∧
    (∀ className fileName : QString,
        ∃ e, (build env (ObjectBuilder.create
          [(QStringLiteral "$type", QJsonValue.String (QStringLiteral "Object"))]
          className fileName)).1 = Except.error e) := by
  refine ⟨?_, ?_, ?_, ?_, ?_⟩
  · by_cases h1 : (ob.root.value (QStringLiteral "$type")).toString = QStringLiteral "object"
    · rw [build_object env ob h1]
      simp [h1]
    · by_cases h2 : (ob.root.value (QStringLiteral "$type")).toString = QStringLiteral "gadget"
      · rw [build_gadget env ob h1 h2]
        simp [h2]
      · rw [build_other env ob h1 h2]
        simp [h1, h2]
  · by_cases h1 : (ob.root.value (QStringLiteral "$type")).toString = QStringLiteral "object"
    · rw [build_object env ob h1]
      simp [h1]
    · by_cases h2 : (ob.root.value (QStringLiteral "$type")).toString = QStringLiteral "gadget"
      · rw [build_gadget env ob h1 h2]
        simp [h2]
      · rw [build_other env ob h1 h2]
        simp [h1, h2]
  · intro className fileName
    exact ⟨_, rfl⟩
  · intro className fileName
    exact ⟨_, rfl⟩
  · intro className fileName
    exact ⟨_, rfl⟩

/-- C2. A failing `build` is atomic: when `build` throws, the state it leaves is the
state it was called on; nothing has been appended to the header or to the source
stream and the member collection is as it was. -/
theorem build_failure_atomic (env : Env) (ob : ObjectBuilder) (e : QString)
    (h : (build env ob).1 = Except.error e) :
    (build env ob).2.header = ob.header ∧
    (build env ob).2.source = ob.source ∧
    (build env ob).2.members = ob.members ∧
    (build env ob).2 = ob := by
  by_cases h1 : (ob.root.value (QStringLiteral "$type")).toString = QStringLiteral "object"
  · rw [build_object env ob h1] at h
    simp at h
  · by_cases h2 : (ob.root.value (QStringLiteral "$type")).toString = QStringLiteral "gadget"
    · rw [build_gadget env ob h1 h2] at h
      simp at h
    · rw [build_other env ob h1 h2]
      simp

theorem build_failure_atomic_witness :
    (build sampleEnv (ObjectBuilder.create [] (QStringLiteral "User") (QStringLiteral "user"))).1
        = Except.error
            (QStringLiteral "REST_API_OBJECTS must be either of type object or gadget") ∧
    (build sampleEnv
        (ObjectBuilder.create [] (QStringLiteral "User") (QStringLiteral "user"))).2.header = [] :=
  ⟨rfl, (build_failure_atomic sampleEnv
      (ObjectBuilder.create [] (QStringLiteral "User") (QStringLiteral "user")) _ rfl).1⟩

/-! ## The mutator name (`setter`) -/

/-- C5. For a non-empty member name `c :: rest`, `setter` yields `"set"`, then the
upper-case form of `c`, then `rest` unchanged: its length is 3 plus the length of
the name, and it agrees with `"set" ++ name` before index 3 and after it.
With the ASCII upper-case map, `setter "count" = "setCount"` and
`setter "id" = "setId"`. -/
theorem setter_nonempty (toUpper : QChar → QChar) (c : QChar) (rest : QString) :
    setter toUpper (c :: rest) = QStringLiteral "set" ++ toUpper c :: rest ∧
    (setter toUpper (c :: rest)).length = 3 + (c :: rest).length ∧
    (setter toUpper (c :: rest)).take 3 = (QStringLiteral "set" ++ c :: rest).take 3 ∧
    (setter toUpper (c :: rest)).drop 4 = (QStringLiteral "set" ++ c :: rest).drop 4 ∧
    (setter toUpper (c :: rest)).charAt 3 = toUpper c ∧
    setter Char.toUpper (QStringLiteral "count") = QStringLiteral "setCount" ∧
    setter Char.toUpper (QStringLiteral "id") = QStringLiteral "setId" := by
  have h : setter toUpper (c :: rest) = QStringLiteral "set" ++ toUpper c :: rest := by
    simp [setter, QStringLiteral, QString.setCharAt, QString.charAt]
  refine ⟨h, ?_, ?_, ?_, ?_, ?_, ?_⟩
  · rw [h]; simp [QStringLiteral]; omega
  · rw [h]; simp [QStringLiteral]
  · rw [h]; simp [QStringLiteral]
  · rw [h]; simp [QStringLiteral, QString.charAt]
  · decide
  · decide

/-! ## The schema reader (`readMembers`) -/

/-- C10. On a schema with pairwise distinct keys and an empty member collection,
`readMembers` leaves in the collection, in the iteration order of the schema, one
entry `(k, v)` for each key `k` that does not start with `$`, `v` being the string
form of the schema value at `k`; no member name starts with `$`; and
nothing but the member collection changes. -/
theorem readMembers_collects (ob : ObjectBuilder)
    (hkeys : (ob.root.map Prod.fst).Nodup) (hfresh : ob.members = []) :
    (readMembers ob).members
        = (ob.root.filter (fun it => !it.1.startsWith (QStringLiteral "$"))).map
            (fun it => (it.1, it.2.toString)) ∧
    (∀ k v, (k, v) ∈ (readMembers ob).members ↔
        (k ∈ ob.root.map Prod.fst ∧ k.startsWith specialPrefix = false ∧
          v = (ob.root.value k).toString)) ∧
    (∀ k v, k.startsWith specialPrefix = true → (k, v) ∉ (readMembers ob).members) ∧
    (readMembers ob).header = ob.header ∧
    (readMembers ob).source = ob.source ∧
    readMembers ob = { ob with members := (readMembers ob).members } := by
  have hm : (readMembers ob).members
      = (ob.root.filter (fun it => !it.1.startsWith (QStringLiteral "$"))).map
          (fun it => (it.1, it.2.toString)) := by
    rw [readMembers_eq]
    simp only []
    rw [collect_eq ob.root ob.members hkeys
      (fun k _ hk => by rw [hfresh] at hk; cases hk), hfresh, List.nil_append]
  have hiff : ∀ k v, (k, v) ∈ (readMembers ob).members ↔
      (k ∈ ob.root.map Prod.fst ∧ k.startsWith specialPrefix = false ∧
        v = (ob.root.value k).toString) := by
    intro k v
    rw [hm]
    simp only [List.mem_map, List.mem_filter, Prod.mk.injEq, specialPrefix]
    constructor
    · rintro ⟨it, ⟨hit, hp⟩, rfl, rfl⟩
      refine ⟨⟨it, hit, rfl⟩, by simpa using hp, ?_⟩
      rw [value_of_mem ob.root hkeys it.1 it.2 hit]
    · rintro ⟨⟨it, hit, rfl⟩, hp, rfl⟩
      refine ⟨it, ⟨hit, by simpa using hp⟩, rfl, ?_⟩
      rw [value_of_mem ob.root hkeys it.1 it.2 hit]
  refine ⟨hm, hiff, ?_, ?_, ?_, ?_⟩
  · intro k v hk hmem
    have := ((hiff k v).1 hmem).2.1
    rw [hk] at this
    exact Bool.noConfusion this
  · rw [readMembers_eq]
  · rw [readMembers_eq]
  · rw [readMembers_eq]

theorem readMembers_collects_witness :
    (userSchema.map Prod.fst).Nodup ∧
    (readMembers (ObjectBuilder.create userSchema (QStringLiteral "User")
        (QStringLiteral "user"))).members = [(QStringLiteral "name", QStringLiteral "QString")] :=
  ⟨by decide,
   (readMembers_collects
      (ObjectBuilder.create userSchema (QStringLiteral "User") (QStringLiteral "user"))
      (by decide) rfl).1.trans (by decide)⟩

/-! ## The two examples of the specification -/

set_option maxRecDepth 1000000

/-- C6. The entity example: for the schema with `$type` "object", `$parent` "Base"
and the member `name` of type `QString`, and `className = "User"`, `build`
succeeds; after the include lines the header is exactly `userHeader`, which
contains `class User : public Base`, one property binding, the accessor, mutator
and event declarations of `name`; after its include line the body is exactly
`userBody`, which contains the constructor delegating to `Base(parent)`, the
accessor returning `_name`, and `User::setName` with the guard, then the
assignment, then the emit. -/
theorem user_example (readIncludes : QJsonObject → List QString)
    (writeIncludes : List QString → QString) (fileName : QString) :
    (build (asciiEnv readIncludes writeIncludes) (userBuilder fileName)).1 = Except.ok () ∧
    (build (asciiEnv readIncludes writeIncludes) (userBuilder fileName)).2.header
      = writeIncludes (readIncludes userSchema ++ [QStringLiteral "QObject"]
          ++ [QStringLiteral "QString"]) ++ userHeader ∧
    (build (asciiEnv readIncludes writeIncludes) (userBuilder fileName)).2.source
      = QStringLiteral "#include \"" ++ fileName ++ QStringLiteral ".h\"\n\n" ++ userBody ∧
    QStringLiteral "class User : public Base\n" <:+: userHeader ∧
    occurrences (QStringLiteral "Q_PROPERTY(") userHeader = 1 ∧
    QStringLiteral "\tQ_PROPERTY(QString name READ name WRITE setName NOTIFY nameChanged)\n"
      <:+: userHeader ∧
    QStringLiteral "\tQString name() const;\n" <:+: userHeader ∧
    QStringLiteral "\tvoid setName(QString name);\n" <:+: userHeader ∧
    QStringLiteral "\tvoid nameChanged(QString name);\n" <:+: userHeader ∧
    QStringLiteral "User::User(QObject *parent) :\n\tBase(parent)\n\x7b\x7d\n" <:+: userBody ∧
    QStringLiteral "QString User::name() const\n\x7b\n\treturn _name;\n\x7d\n" <:+: userBody ∧
    (QStringLiteral "void User::setName(QString name)\n\x7b\n"
      ++ QStringLiteral "\tif(_name == name)\n\t\treturn;\n\n"
      ++ QStringLiteral "\t_name = name;\n"
      ++ QStringLiteral "\temit nameChanged(name);\n"
      ++ QStringLiteral "\x7d\n") <:+: userBody := by
  have htype : ((userBuilder fileName).root.value (QStringLiteral "$type")).toString
      = QStringLiteral "object" := rfl
  have hmembers : collect userSchema [] = [(QStringLiteral "name", QStringLiteral "QString")] := by
    decide
  have hparent : (userSchema.value (QStringLiteral "$parent")).toStringOr (QStringLiteral "QObject")
      = QStringLiteral "Base" := by decide
  refine ⟨?_, ?_, ?_, by decide, by decide, by decide, by decide, by decide, by decide,
    by decide, by decide, by decide⟩
  · rw [build_object _ _ htype]
  · rw [build_object _ _ htype, generateApiObject_eq]
    simp only [userBuilder, ObjectBuilder.create, asciiEnv, hmembers, hparent, List.nil_append,
      List.append_assoc]
    congr 1
  · rw [build_object _ _ htype, generateApiObject_eq]
    simp only [userBuilder, ObjectBuilder.create, asciiEnv, hmembers, hparent, List.nil_append,
      List.append_assoc]
    congr 2

/-- C7. The record example: for the schema with `$type` "gadget" and the member
`id` of type `int`, and `className = "Record"`, `build` succeeds; after the
include lines the header is exactly `recordHeader`: the forward declaration
`class RecordData;`, a standalone `class Record`, and a private section that is
the one field `QSharedDataPointer<RecordData> d;`; after its include line the
body is exactly `recordBody`, which contains the class `RecordData` with the one
field `int _id;`, its default constructor and its copy constructor; neither
text contains a change-event declaration, a signals section or an `emit`. -/
theorem record_example (readIncludes : QJsonObject → List QString)
    (writeIncludes : List QString → QString) (fileName : QString) :
    (build (asciiEnv readIncludes writeIncludes) (recordBuilder fileName)).1 = Except.ok () ∧
    (build (asciiEnv readIncludes writeIncludes) (recordBuilder fileName)).2.header
      = writeIncludes (readIncludes recordSchema ++ [QStringLiteral "QSharedDataPointer"]
          ++ [QStringLiteral "QString"]) ++ recordHeader ∧
    (build (asciiEnv readIncludes writeIncludes) (recordBuilder fileName)).2.source
      = QStringLiteral "#include \"" ++ fileName ++ QStringLiteral ".h\"\n\n" ++ recordBody ∧
    QStringLiteral "class RecordData;\nclass Record\n\x7b\n" <+: recordHeader ∧
    QStringLiteral "\nprivate:\n\t QSharedDataPointer<RecordData> d;\n\x7d;\n\n" <:+ recordHeader ∧
    occurrences (QStringLiteral "private:") recordHeader = 1 ∧
    (QStringLiteral "class RecordData : public QSharedData\n\x7b\npublic:\n"
      ++ QStringLiteral "\tRecordData();\n\tRecordData(const RecordData &other);\n\n"
      ++ QStringLiteral "\tint _id;\n"
      ++ QStringLiteral "\x7d;\n\n") <+: recordBody ∧
    QStringLiteral "RecordData::RecordData() :\n\tQSharedData()\n\x7b\x7d\n\n" <:+: recordBody ∧
    (QStringLiteral "RecordData::RecordData(const RecordData &other) :\n\tQSharedData(other)\n"
      ++ QStringLiteral "\t,_id(other._id)\n\x7b\x7d\n\n") <:+: recordBody ∧
    ¬ QStringLiteral "Changed" <:+: recordHeader ∧
    ¬ QStringLiteral "Q_SIGNALS" <:+: recordHeader ∧
    ¬ QStringLiteral "emit" <:+: recordHeader ∧
    ¬ QStringLiteral "Changed" <:+: recordBody ∧
    ¬ QStringLiteral "emit" <:+: recordBody := by
  have htype : ((recordBuilder fileName).root.value (QStringLiteral "$type")).toString
      = QStringLiteral "gadget" := rfl
  have hobject : ((recordBuilder fileName).root.value (QStringLiteral "$type")).toString
      ≠ QStringLiteral "object" := by rw [htype]; decide
  have hmembers : collect recordSchema [] = [(QStringLiteral "id", QStringLiteral "int")] := by
    decide
  have hparent : (recordSchema.value (QStringLiteral "$parent")).toString = [] := by decide
  refine ⟨?_, ?_, ?_, by decide, by decide, by decide, by decide, by decide, by decide,
    by decide, by decide, by decide, by decide, by decide⟩
  · rw [build_gadget _ _ hobject htype]
  · rw [build_gadget _ _ hobject htype, generateApiGadget_eq]
    simp only [recordBuilder, ObjectBuilder.create, asciiEnv, hmembers, hparent,
      List.nil_append, List.append_assoc]
    congr 1
  · rw [build_gadget _ _ hobject htype, generateApiGadget_eq]
    simp only [recordBuilder, ObjectBuilder.create, asciiEnv, hmembers, hparent,
      List.nil_append, List.append_assoc]
    congr 2

/-! ## One line and one definition per member -/

/-- In a collection with pairwise distinct names every member has exactly one position. -/
theorem unique_position (M : Members) (hM : (M.map Prod.fst).Nodup)
    (m : QString × QString) (hm : m ∈ M) : ∃! i : Nat, M[i]? = some m := by
  obtain ⟨i, hi⟩ := List.mem_iff_getElem?.1 hm
  refine ⟨i, hi, ?_⟩
  intro j hj
  have hjlt : j < (M.map Prod.fst).length := by
    rw [List.length_map]
    exact (List.getElem?_eq_some.1 hj).1
  have e : (M.map Prod.fst)[j]? = (M.map Prod.fst)[i]? := by
    rw [List.getElem?_map, List.getElem?_map, hi, hj]
  exact List.getElem?_inj hjlt hM e

theorem suffix_step {s t u : QString} (h : u <:+ s) : u <:+ t ++ s :=
  h.trans (List.suffix_append t s)

/-- The line emitted for the member at position `i` is the `i`-th line of the group. -/
theorem line_at_position (M : Members) (line : QString × QString → QString)
    (m : QString × QString) (i : Nat) (h : M[i]? = some m) :
    (M.map line)[i]? = some (line m) := by
  rw [List.getElem?_map, h]
  rfl

/-- C3. For a schema with `$type` "object" whose member collection `M` has pairwise
distinct names, the header written by `build` (through `generateApiObject`) is the
text before the call, the include lines, and then the class in which the property
bindings, the accessor declarations, the mutator declarations and the change-event
declarations form four groups, each the lines of the members of `M` in the
iteration order of `M`: each group has `|M|` lines, and every member has exactly
one position, at which each group holds the line of that member. -/
theorem object_header_lines (env : Env) (ob : ObjectBuilder) (M : Members)
    (htype : (ob.root.value (QStringLiteral "$type")).toString = QStringLiteral "object")
    (hmembers : (build env ob).2.members = M)
    (hM : (M.map Prod.fst).Nodup) :
    (build env ob).2.header
      = ob.header
        ++ env.writeIncludes
            (env.readIncludes ob.root ++ [QStringLiteral "QObject"] ++ [QStringLiteral "QString"])
        ++ QStringLiteral "class " ++ ob.className ++ QStringLiteral " : public "
        ++ (ob.root.value (QStringLiteral "$parent")).toStringOr (QStringLiteral "QObject")
        ++ QStringLiteral "\n" ++ QStringLiteral "\x7b\n" ++ QStringLiteral "\tQ_OBJECT\n\n"
        ++ (M.map (Spec.propertyBinding env.toUpper)).flatten
        ++ QStringLiteral "\npublic:\n"
        ++ QStringLiteral "\tQ_INVOKABLE " ++ ob.className
        ++ QStringLiteral "(QObject *parent = nullptr);\n\n"
        ++ (M.map Spec.accessorDeclaration).flatten
        ++ QStringLiteral "\npublic Q_SLOTS:\n"
        ++ (M.map (Spec.mutatorDeclaration env.toUpper)).flatten
        ++ QStringLiteral "\nQ_SIGNALS:\n"
        ++ (M.map Spec.changeEventDeclaration).flatten
        ++ QStringLiteral "\nprivate:\n"
        ++ (M.map Spec.fieldDeclaration).flatten
        ++ QStringLiteral "\x7d;\n\n" ∧
    (M.map (Spec.propertyBinding env.toUpper)).length = M.length ∧
    (M.map Spec.accessorDeclaration).length = M.length ∧
    (M.map (Spec.mutatorDeclaration env.toUpper)).length = M.length ∧
    (M.map Spec.changeEventDeclaration).length = M.length ∧
    (∀ m ∈ M, ∃! i : Nat, M[i]? = some m ∧
      (M.map (Spec.propertyBinding env.toUpper))[i]?
        = some (QStringLiteral "\tQ_PROPERTY(" ++ m.2 ++ QStringLiteral " " ++ m.1
            ++ QStringLiteral " READ " ++ m.1
            ++ QStringLiteral " WRITE " ++ setter env.toUpper m.1
            ++ QStringLiteral " NOTIFY " ++ m.1 ++ QStringLiteral "Changed)\n") ∧
      (M.map Spec.accessorDeclaration)[i]?
        = some (QStringLiteral "\t" ++ m.2 ++ QStringLiteral " " ++ m.1
            ++ QStringLiteral "() const;\n") ∧
      (M.map (Spec.mutatorDeclaration env.toUpper))[i]?
        = some (QStringLiteral "\tvoid " ++ setter env.toUpper m.1 ++ QStringLiteral "(" ++ m.2
            ++ QStringLiteral " " ++ m.1 ++ QStringLiteral ");\n") ∧
      (M.map Spec.changeEventDeclaration)[i]?
        = some (QStringLiteral "\tvoid " ++ m.1 ++ QStringLiteral "Changed(" ++ m.2
            ++ QStringLiteral " " ++ m.1 ++ QStringLiteral ");\n")) := by
  have hcollect : collect ob.root ob.members = M := by
    rw [← hmembers, build_object env ob htype, generateApiObject_eq]
  refine ⟨?_, by simp, by simp, by simp, by simp, ?_⟩
  · rw [build_object env ob htype, generateApiObject_eq]
    simp only [hcollect, List.append_assoc]
  · intro m hm
    obtain ⟨i, hi, huniq⟩ := unique_position M hM m hm
    refine ⟨i, ⟨hi, ?_, ?_, ?_, ?_⟩, fun j hj => huniq j hj.1⟩
    · exact line_at_position M _ m i hi
    · exact line_at_position M _ m i hi
    · exact line_at_position M _ m i hi
    · exact line_at_position M _ m i hi

theorem object_header_lines_witness :
    ((userBuilder (QStringLiteral "user")).root.value (QStringLiteral "$type")).toString
      = QStringLiteral "object" ∧
    (build sampleEnv (userBuilder (QStringLiteral "user"))).2.members
      = [(QStringLiteral "name", QStringLiteral "QString")] ∧
    (build sampleEnv (userBuilder (QStringLiteral "user"))).2.header
      = QStringLiteral "#include <QObject>\n#include <QString>\n\n" ++ userHeader :=
  ⟨rfl, by decide,
   (object_header_lines sampleEnv (userBuilder (QStringLiteral "user"))
      [(QStringLiteral "name", QStringLiteral "QString")] rfl (by decide) (by decide)).1.trans
      (by decide)⟩

/-- C4. For a schema with `$type` "gadget" the header written by `build` (through
`generateApiGadget`) is the text before the call, the include lines, the forward
declaration of the data class, the class line, the property bindings, the
constructor and destructor declarations, the accessor declarations, the mutator
declarations and the private section: there is no signals section and no group
of change-event declarations, every property binding is
`Q_PROPERTY(type name READ name WRITE setName)` without a `NOTIFY` clause, and the
header ends with a private section that is the single field
`QSharedDataPointer<classNameData> d;`, whatever the members are. -/
theorem gadget_header_shape (env : Env) (ob : ObjectBuilder) (M : Members)
    (htype : (ob.root.value (QStringLiteral "$type")).toString = QStringLiteral "gadget")
    (hmembers : (build env ob).2.members = M) :
    (build env ob).2.header
      = ob.header
        ++ env.writeIncludes
            (env.readIncludes ob.root ++ [QStringLiteral "QSharedDataPointer"]
              ++ [QStringLiteral "QString"])
        ++ QStringLiteral "class " ++ ob.className ++ QStringLiteral "Data;\n"
        ++ (if (ob.root.value (QStringLiteral "$parent")).toString.isEmpty then
              QStringLiteral "class " ++ ob.className ++ QStringLiteral "\n"
            else
              QStringLiteral "class " ++ ob.className ++ QStringLiteral " : public "
                ++ (ob.root.value (QStringLiteral "$parent")).toString ++ QStringLiteral "\n")
        ++ QStringLiteral "\x7b\n" ++ QStringLiteral "\tQ_GADGET\n\n"
        ++ (M.map (Spec.plainPropertyBinding env.toUpper)).flatten
        ++ QStringLiteral "\npublic:\n"
        ++ QStringLiteral "\t" ++ ob.className ++ QStringLiteral "();\n"
        ++ QStringLiteral "\t" ++ ob.className ++ QStringLiteral "(const " ++ ob.className
        ++ QStringLiteral " &other);\n"
        ++ QStringLiteral "\t~" ++ ob.className ++ QStringLiteral "();\n\n"
        ++ (M.map Spec.accessorDeclaration).flatten
        ++ QStringLiteral "\n"
        ++ (M.map (Spec.mutatorDeclaration env.toUpper)).flatten
        ++ QStringLiteral "\nprivate:\n"
        ++ QStringLiteral "\t QSharedDataPointer<" ++ ob.className ++ QStringLiteral "Data> d;\n"
        ++ QStringLiteral "\x7d;\n\n" ∧
    (∀ (i : Nat) (m : QString × QString), M[i]? = some m →
      (M.map (Spec.plainPropertyBinding env.toUpper))[i]?
        = some (QStringLiteral "\tQ_PROPERTY(" ++ m.2 ++ QStringLiteral " " ++ m.1
            ++ QStringLiteral " READ " ++ m.1
            ++ QStringLiteral " WRITE " ++ setter env.toUpper m.1 ++ QStringLiteral ")\n")) ∧
    (QStringLiteral "\nprivate:\n"
        ++ QStringLiteral "\t QSharedDataPointer<" ++ ob.className ++ QStringLiteral "Data> d;\n"
        ++ QStringLiteral "\x7d;\n\n") <:+ (build env ob).2.header := by
  have hobject : (ob.root.value (QStringLiteral "$type")).toString ≠ QStringLiteral "object" := by
    rw [htype]; decide
  have hcollect : collect ob.root ob.members = M := by
    rw [← hmembers, build_gadget env ob hobject htype, generateApiGadget_eq]
  have hheader := congrArg ObjectBuilder.header (generateApiGadget_eq env ob)
  simp only [hcollect] at hheader
  refine ⟨?_, ?_, ?_⟩
  · rw [build_gadget env ob hobject htype, hheader]
  · intro i m hi
    exact line_at_position M _ m i hi
  · rw [build_gadget env ob hobject htype, hheader]
    simp only [List.append_assoc]
    repeat (first | with_reducible exact List.suffix_rfl | apply suffix_step)

theorem gadget_header_shape_witness :
    ((recordBuilder (QStringLiteral "record")).root.value (QStringLiteral "$type")).toString
      = QStringLiteral "gadget" ∧
    (build sampleEnv (recordBuilder (QStringLiteral "record"))).2.members
      = [(QStringLiteral "id", QStringLiteral "int")] ∧
    (build sampleEnv (recordBuilder (QStringLiteral "record"))).2.header
      = QStringLiteral "#include <QSharedDataPointer>\n#include <QString>\n\n" ++ recordHeader :=
  ⟨rfl, by decide,
   (gadget_header_shape sampleEnv (recordBuilder (QStringLiteral "record"))
      [(QStringLiteral "id", QStringLiteral "int")] rfl (by decide)).1.trans (by decide)⟩

/-- C8. For a schema with `$type` "object" the body written by `build` (through
`generateApiObject`) is the text before the call, the include line, the
constructor, then one accessor definition per member and then one mutator
definition per member, both in the iteration order of the members.  The accessor
definition of `(name, type)` is `type className::name() const` returning `_name`;
the mutator definition is `void className::setName(type name)` whose body is, in
this order, the guard `if(_name == name) return;`, the assignment `_name = name;`
and the notification `emit nameChanged(name);`.  Every member has exactly one
position, at which its accessor and its mutator definition stand. -/
theorem object_body_definitions (env : Env) (ob : ObjectBuilder) (M : Members)
    (htype : (ob.root.value (QStringLiteral "$type")).toString = QStringLiteral "object")
    (hnodup : (ob.members.map Prod.fst).Nodup)
    (hmembers : (build env ob).2.members = M) :
    (build env ob).2.source
      = ob.source
        ++ QStringLiteral "#include \"" ++ ob.fileName ++ QStringLiteral ".h\"\n\n"
        ++ ob.className ++ QStringLiteral "::" ++ ob.className
        ++ QStringLiteral "(QObject *parent) :\n"
        ++ QStringLiteral "\t"
        ++ (ob.root.value (QStringLiteral "$parent")).toStringOr (QStringLiteral "QObject")
        ++ QStringLiteral "(parent)\n"
        ++ QStringLiteral "\x7b\x7d\n"
        ++ (M.map (Spec.accessorDefinition ob.className (QStringLiteral "_"))).flatten
        ++ (M.map (Spec.mutatorDefinition env.toUpper ob.className (QStringLiteral "_")
              true)).flatten ∧
    (M.map (Spec.accessorDefinition ob.className (QStringLiteral "_"))).length = M.length ∧
    (M.map (Spec.mutatorDefinition env.toUpper ob.className (QStringLiteral "_") true)).length
      = M.length ∧
    (∀ m ∈ M, ∃! i : Nat, M[i]? = some m ∧
      (M.map (Spec.accessorDefinition ob.className (QStringLiteral "_")))[i]?
        = some (QStringLiteral "\n" ++ m.2 ++ QStringLiteral " " ++ ob.className
            ++ QStringLiteral "::" ++ m.1 ++ QStringLiteral "() const\n"
            ++ QStringLiteral "\x7b\n"
            ++ QStringLiteral "\treturn " ++ QStringLiteral "_" ++ m.1 ++ QStringLiteral ";\n"
            ++ QStringLiteral "\x7d\n") ∧
      (M.map (Spec.mutatorDefinition env.toUpper ob.className (QStringLiteral "_") true))[i]?
        = some (QStringLiteral "\nvoid " ++ ob.className ++ QStringLiteral "::"
            ++ setter env.toUpper m.1
            ++ QStringLiteral "(" ++ m.2 ++ QStringLiteral " " ++ m.1 ++ QStringLiteral ")\n"
            ++ QStringLiteral "\x7b\n"
            ++ QStringLiteral "\tif(" ++ QStringLiteral "_" ++ m.1 ++ QStringLiteral " == " ++ m.1
            ++ QStringLiteral ")\n" ++ QStringLiteral "\t\treturn;\n\n"
            ++ QStringLiteral "\t" ++ QStringLiteral "_" ++ m.1 ++ QStringLiteral " = " ++ m.1
            ++ QStringLiteral ";\n"
            ++ QStringLiteral "\temit " ++ m.1 ++ QStringLiteral "Changed(" ++ m.1
            ++ QStringLiteral ");\n"
            ++ QStringLiteral "\x7d\n")) := by
  have hcollect : collect ob.root ob.members = M := by
    rw [← hmembers, build_object env ob htype, generateApiObject_eq]
  have hM : (M.map Prod.fst).Nodup := hcollect ▸ nodup_collect ob.root ob.members hnodup
  refine ⟨?_, by simp, by simp, ?_⟩
  · rw [build_object env ob htype, generateApiObject_eq]
    simp only [hcollect, List.append_assoc]
  · intro m hm
    obtain ⟨i, hi, huniq⟩ := unique_position M hM m hm
    refine ⟨i, ⟨hi, ?_, ?_⟩, fun j hj => huniq j hj.1⟩
    · rw [line_at_position M _ m i hi]
      simp [Spec.accessorDefinition, List.append_assoc]
    · rw [line_at_position M _ m i hi]
      simp [Spec.mutatorDefinition, Spec.guard, Spec.assignment, Spec.notification,
        List.append_assoc]

theorem object_body_definitions_witness :
    ((userBuilder (QStringLiteral "user")).root.value (QStringLiteral "$type")).toString
      = QStringLiteral "object" ∧
    ((userBuilder (QStringLiteral "user")).members.map Prod.fst).Nodup ∧
    (build sampleEnv (userBuilder (QStringLiteral "user"))).2.source
      = QStringLiteral "#include \"user.h\"\n\n" ++ userBody :=
  ⟨rfl, by decide,
   (object_body_definitions sampleEnv (userBuilder (QStringLiteral "user"))
      [(QStringLiteral "name", QStringLiteral "QString")] rfl (by decide) (by decide)).1.trans
      (by decide)⟩

/-- C9. For a schema with `$type` "gadget" the body written by `build` ends with one
accessor definition per member and then one mutator definition per member.  The
accessor of `(name, type)` returns `d->_name`; the mutator has the guard
`if(d->_name == name) return;`, then the assignment `d->_name = name;`, and no
`emit` line.  The two forms of `writeWriteDefinitions` (and of
`writeReadDefinitions`) write one and the same text per member, up to the storage
prefix (`d->_` for a record, `_` for an entity) and the `emit` line, which only the
entity form has. -/
theorem gadget_body_definitions (env : Env) (ob : ObjectBuilder) (M : Members)
    (htype : (ob.root.value (QStringLiteral "$type")).toString = QStringLiteral "gadget")
    (hnodup : (ob.members.map Prod.fst).Nodup)
    (hmembers : (build env ob).2.members = M) :
    ((M.map (Spec.accessorDefinition ob.className (QStringLiteral "d->_"))).flatten
        ++ (M.map (Spec.mutatorDefinition env.toUpper ob.className (QStringLiteral "d->_")
              false)).flatten) <:+ (build env ob).2.source ∧
    (∀ m ∈ M, ∃! i : Nat, M[i]? = some m ∧
      (M.map (Spec.accessorDefinition ob.className (QStringLiteral "d->_")))[i]?
        = some (QStringLiteral "\n" ++ m.2 ++ QStringLiteral " " ++ ob.className
            ++ QStringLiteral "::" ++ m.1 ++ QStringLiteral "() const\n"
            ++ QStringLiteral "\x7b\n"
            ++ QStringLiteral "\treturn " ++ QStringLiteral "d->_" ++ m.1 ++ QStringLiteral ";\n"
            ++ QStringLiteral "\x7d\n") ∧
      (M.map (Spec.mutatorDefinition env.toUpper ob.className (QStringLiteral "d->_") false))[i]?
        = some (QStringLiteral "\nvoid " ++ ob.className ++ QStringLiteral "::"
            ++ setter env.toUpper m.1
            ++ QStringLiteral "(" ++ m.2 ++ QStringLiteral " " ++ m.1 ++ QStringLiteral ")\n"
            ++ QStringLiteral "\x7b\n"
            ++ QStringLiteral "\tif(" ++ QStringLiteral "d->_" ++ m.1 ++ QStringLiteral " == "
            ++ m.1 ++ QStringLiteral ")\n" ++ QStringLiteral "\t\treturn;\n\n"
            ++ QStringLiteral "\t" ++ QStringLiteral "d->_" ++ m.1 ++ QStringLiteral " = " ++ m.1
            ++ QStringLiteral ";\n"
            ++ QStringLiteral "\x7d\n")) ∧
    (∀ (asGadget : Bool) (o : ObjectBuilder),
      writeWriteDefinitions env asGadget o
        = { o with source := o.source ++ (o.members.map (fun m =>
              QStringLiteral "\nvoid " ++ o.className ++ QStringLiteral "::"
                ++ setter env.toUpper m.1
                ++ QStringLiteral "(" ++ m.2 ++ QStringLiteral " " ++ m.1 ++ QStringLiteral ")\n"
                ++ QStringLiteral "\x7b\n"
                ++ QStringLiteral "\tif("
                ++ (if asGadget then QStringLiteral "d->_" else QStringLiteral "_") ++ m.1
                ++ QStringLiteral " == " ++ m.1 ++ QStringLiteral ")\n"
                ++ QStringLiteral "\t\treturn;\n\n"
                ++ QStringLiteral "\t"
                ++ (if asGadget then QStringLiteral "d->_" else QStringLiteral "_") ++ m.1
                ++ QStringLiteral " = " ++ m.1 ++ QStringLiteral ";\n"
                ++ (if asGadget then []
                    else QStringLiteral "\temit " ++ m.1 ++ QStringLiteral "Changed(" ++ m.1
                      ++ QStringLiteral ");\n")
                ++ QStringLiteral "\x7d\n")).flatten }) ∧
    (∀ (asGadget : Bool) (o : ObjectBuilder),
      writeReadDefinitions asGadget o
        = { o with source := o.source ++ (o.members.map (fun m =>
              QStringLiteral "\n" ++ m.2 ++ QStringLiteral " " ++ o.className
                ++ QStringLiteral "::" ++ m.1 ++ QStringLiteral "() const\n"
                ++ QStringLiteral "\x7b\n"
                ++ QStringLiteral "\treturn "
                ++ (if asGadget then QStringLiteral "d->_" else QStringLiteral "_") ++ m.1
                ++ QStringLiteral ";\n"
                ++ QStringLiteral "\x7d\n")).flatten }) := by
  have hobject : (ob.root.value (QStringLiteral "$type")).toString ≠ QStringLiteral "object" := by
    rw [htype]; decide
  have hcollect : collect ob.root ob.members = M := by
    rw [← hmembers, build_gadget env ob hobject htype, generateApiGadget_eq]
  have hM : (M.map Prod.fst).Nodup := hcollect ▸ nodup_collect ob.root ob.members hnodup
  have hsource := congrArg ObjectBuilder.source (generateApiGadget_eq env ob)
  simp only [hcollect] at hsource
  refine ⟨?_, ?_, ?_, ?_⟩
  · rw [build_gadget env ob hobject htype, hsource]
    simp only [List.append_assoc]
    repeat (first | with_reducible exact List.suffix_rfl | apply suffix_step)
  · intro m hm
    obtain ⟨i, hi, huniq⟩ := unique_position M hM m hm
    refine ⟨i, ⟨hi, ?_, ?_⟩, fun j hj => huniq j hj.1⟩
    · rw [line_at_position M _ m i hi]
      simp [Spec.accessorDefinition, List.append_assoc]
    · rw [line_at_position M _ m i hi]
      simp [Spec.mutatorDefinition, Spec.guard, Spec.assignment, List.append_assoc]
  · intro asGadget o
    rw [writeWriteDefinitions_eq]
    refine congrArg (fun f => { o with source := o.source ++ (o.members.map f).flatten })
      (funext fun m => ?_)
    cases asGadget <;>
      simp [Spec.mutatorDefinition, Spec.guard, Spec.assignment, Spec.notification,
        List.append_assoc]
  · intro asGadget o
    rw [writeReadDefinitions_eq]
    refine congrArg (fun f => { o with source := o.source ++ (o.members.map f).flatten })
      (funext fun m => ?_)
    cases asGadget <;> simp [Spec.accessorDefinition, List.append_assoc]

theorem gadget_body_definitions_witness :
    ((recordBuilder (QStringLiteral "record")).root.value (QStringLiteral "$type")).toString
      = QStringLiteral "gadget" ∧
    ((recordBuilder (QStringLiteral "record")).members.map Prod.fst).Nodup ∧
    (build sampleEnv (recordBuilder (QStringLiteral "record"))).2.members
      = [(QStringLiteral "id", QStringLiteral "int")] ∧
    QStringLiteral "\nint Record::id() const\n\x7b\n\treturn d->_id;\n\x7d\n\nvoid Record::setId(int id)\n\x7b\n\tif(d->_id == id)\n\t\treturn;\n\n\td->_id = id;\n\x7d\n"
      <:+ (build sampleEnv (recordBuilder (QStringLiteral "record"))).2.source := by
  refine ⟨rfl, by decide, by decide, ?_⟩
  have h := (gadget_body_definitions sampleEnv (recordBuilder (QStringLiteral "record"))
    [(QStringLiteral "id", QStringLiteral "int")] rfl (by decide) (by decide)).1
  exact h

/-! ## Parent resolution -/

theorem value_of_not_mem (root : QJsonObject) (key : QString)
    (h : key ∉ root.map Prod.fst) : root.value key = QJsonValue.Undefined := by
  induction root with
  | nil => rfl
  | cons it rest ih =>
    obtain ⟨k, v⟩ := it
    simp only [List.map_cons, List.mem_cons, not_or] at h
    have hk : ¬ k = key := fun e => h.1 e.symm
    simp [QJsonObject.value, hk, ih h.2]

theorem writeDataClass_eq (ob : ObjectBuilder) :
    writeDataClass ob
      = { ob with source := ob.source ++ Spec.dataClass ob.className ob.members } := by
  simp [writeDataClass, Spec.dataClass, put_source, writeMemberDefinitions_source,
    writeMemberCopyDefinitions_source, List.append_assoc]

/-- The header `generateApiObject` leaves, as a function of the resolved parent. -/
theorem object_header_eq (env : Env) (ob : ObjectBuilder) :
    (generateApiObject env ob).header
      = ob.header
        ++ env.writeIncludes
            (env.readIncludes ob.root ++ [QStringLiteral "QObject"] ++ [QStringLiteral "QString"])
        ++ QStringLiteral "class " ++ ob.className ++ QStringLiteral " : public "
        ++ (ob.root.value (QStringLiteral "$parent")).toStringOr (QStringLiteral "QObject")
        ++ QStringLiteral "\n" ++ QStringLiteral "\x7b\n" ++ QStringLiteral "\tQ_OBJECT\n\n"
        ++ ((collect ob.root ob.members).map (Spec.propertyBinding env.toUpper)).flatten
        ++ QStringLiteral "\npublic:\n"
        ++ QStringLiteral "\tQ_INVOKABLE " ++ ob.className
        ++ QStringLiteral "(QObject *parent = nullptr);\n\n"
        ++ ((collect ob.root ob.members).map Spec.accessorDeclaration).flatten
        ++ QStringLiteral "\npublic Q_SLOTS:\n"
        ++ ((collect ob.root ob.members).map (Spec.mutatorDeclaration env.toUpper)).flatten
        ++ QStringLiteral "\nQ_SIGNALS:\n"
        ++ ((collect ob.root ob.members).map Spec.changeEventDeclaration).flatten
        ++ QStringLiteral "\nprivate:\n"
        ++ ((collect ob.root ob.members).map Spec.fieldDeclaration).flatten
        ++ QStringLiteral "\x7d;\n\n" := by
  rw [generateApiObject_eq]

/-- The body `generateApiObject` leaves, as a function of the resolved parent. -/
theorem object_source_eq (env : Env) (ob : ObjectBuilder) :
    (generateApiObject env ob).source
      = ob.source
        ++ QStringLiteral "#include \"" ++ ob.fileName ++ QStringLiteral ".h\"\n\n"
        ++ ob.className ++ QStringLiteral "::" ++ ob.className
        ++ QStringLiteral "(QObject *parent) :\n"
        ++ QStringLiteral "\t"
        ++ (ob.root.value (QStringLiteral "$parent")).toStringOr (QStringLiteral "QObject")
        ++ QStringLiteral "(parent)\n"
        ++ QStringLiteral "\x7b\x7d\n"
        ++ ((collect ob.root ob.members).map
              (Spec.accessorDefinition ob.className (QStringLiteral "_"))).flatten
        ++ ((collect ob.root ob.members).map
              (Spec.mutatorDefinition env.toUpper ob.className (QStringLiteral "_")
                true)).flatten := by
  rw [generateApiObject_eq]

/-- The header `generateApiGadget` leaves. -/
theorem gadget_header_eq (env : Env) (ob : ObjectBuilder) :
    (generateApiGadget env ob).header
      = ob.header
        ++ env.writeIncludes
            (env.readIncludes ob.root ++ [QStringLiteral "QSharedDataPointer"]
              ++ [QStringLiteral "QString"])
        ++ QStringLiteral "class " ++ ob.className ++ QStringLiteral "Data;\n"
        ++ (if (ob.root.value (QStringLiteral "$parent")).toString.isEmpty then
              QStringLiteral "class " ++ ob.className ++ QStringLiteral "\n"
            else
              QStringLiteral "class " ++ ob.className ++ QStringLiteral " : public "
                ++ (ob.root.value (QStringLiteral "$parent")).toString ++ QStringLiteral "\n")
        ++ QStringLiteral "\x7b\n" ++ QStringLiteral "\tQ_GADGET\n\n"
        ++ ((collect ob.root ob.members).map (Spec.plainPropertyBinding env.toUpper)).flatten
        ++ QStringLiteral "\npublic:\n"
        ++ QStringLiteral "\t" ++ ob.className ++ QStringLiteral "();\n"
        ++ QStringLiteral "\t" ++ ob.className ++ QStringLiteral "(const " ++ ob.className
        ++ QStringLiteral " &other);\n"
        ++ QStringLiteral "\t~" ++ ob.className ++ QStringLiteral "();\n\n"
        ++ ((collect ob.root ob.members).map Spec.accessorDeclaration).flatten
        ++ QStringLiteral "\n"
        ++ ((collect ob.root ob.members).map (Spec.mutatorDeclaration env.toUpper)).flatten
        ++ QStringLiteral "\nprivate:\n"
        ++ QStringLiteral "\t QSharedDataPointer<" ++ ob.className ++ QStringLiteral "Data> d;\n"
        ++ QStringLiteral "\x7d;\n\n" := by
  rw [generateApiGadget_eq]

/-- The body `generateApiGadget` leaves: the include line, the data class, the two
handle constructors, the destructor, the accessor and the mutator definitions. -/
theorem gadget_source_eq (env : Env) (ob : ObjectBuilder) :
    (generateApiGadget env ob).source
      = ob.source
        ++ QStringLiteral "#include \"" ++ ob.fileName ++ QStringLiteral ".h\"\n\n"
        ++ Spec.dataClass ob.className (collect ob.root ob.members)
        ++ ob.className ++ QStringLiteral "::" ++ ob.className ++ QStringLiteral "() :\n"
        ++ (if (ob.root.value (QStringLiteral "$parent")).toString.isEmpty then []
            else QStringLiteral "\t" ++ (ob.root.value (QStringLiteral "$parent")).toString
              ++ QStringLiteral "(),\n")
        ++ QStringLiteral "\td(new " ++ ob.className ++ QStringLiteral "Data())\n"
        ++ QStringLiteral "\x7b\x7d\n\n"
        ++ ob.className ++ QStringLiteral "::" ++ ob.className ++ QStringLiteral "(const "
        ++ ob.className ++ QStringLiteral " &other) :\n"
        ++ (if (ob.root.value (QStringLiteral "$parent")).toString.isEmpty then []
            else QStringLiteral "\t" ++ (ob.root.value (QStringLiteral "$parent")).toString
              ++ QStringLiteral "(other),\n")
        ++ QStringLiteral "\td(other.d)\n"
        ++ QStringLiteral "\x7b\x7d\n\n"
        ++ ob.className ++ QStringLiteral "::~" ++ ob.className
        ++ QStringLiteral "() \x7b\x7d\n"
        ++ ((collect ob.root ob.members).map
              (Spec.accessorDefinition ob.className (QStringLiteral "d->_"))).flatten
        ++ ((collect ob.root ob.members).map
              (Spec.mutatorDefinition env.toUpper ob.className (QStringLiteral "d->_")
                false)).flatten := by
  rw [generateApiGadget_eq]
  simp only [Spec.dataClass, List.append_assoc]

theorem generateApiObject_members (env : Env) (ob : ObjectBuilder) :
    (generateApiObject env ob).members = collect ob.root ob.members := by
  rw [generateApiObject_eq]

theorem generateApiGadget_members (env : Env) (ob : ObjectBuilder) :
    (generateApiGadget env ob).members = collect ob.root ob.members := by
  rw [generateApiGadget_eq]

theorem gadget_not_object {t : QString} (h : t = QStringLiteral "gadget") :
    t ≠ QStringLiteral "object" := by
  rw [h]; decide

/-- C11. Parent resolution.  For an entity schema whose `$parent` is the string `P`
the class line is `class C : public P` and the constructor initialiser is
`P(parent)`; when `$parent` is absent they are `class C : public QObject` and
`QObject(parent)`.  For a record schema whose `$parent` is absent or the empty
string the handle class is the standalone `class C` and neither constructor has a
parent initialiser; when `$parent` is a non-empty string `P` the class line is
`class C : public P` (and the constructors initialise `P()` and `P(other)`). -/
theorem parent_resolution (env : Env) (ob : ObjectBuilder) :
    (∀ P : QString,
      (ob.root.value (QStringLiteral "$type")).toString = QStringLiteral "object" →
      ob.root.value (QStringLiteral "$parent") = QJsonValue.String P →
        (ob.header
          ++ env.writeIncludes
              (env.readIncludes ob.root ++ [QStringLiteral "QObject"] ++ [QStringLiteral "QString"])
          ++ QStringLiteral "class " ++ ob.className ++ QStringLiteral " : public " ++ P
          ++ QStringLiteral "\n" ++ QStringLiteral "\x7b\n" ++ QStringLiteral "\tQ_OBJECT\n\n")
            <+: (build env ob).2.header ∧
        (ob.source
          ++ QStringLiteral "#include \"" ++ ob.fileName ++ QStringLiteral ".h\"\n\n"
          ++ ob.className ++ QStringLiteral "::" ++ ob.className
          ++ QStringLiteral "(QObject *parent) :\n"
          ++ QStringLiteral "\t" ++ P ++ QStringLiteral "(parent)\n"
          ++ QStringLiteral "\x7b\x7d\n") <+: (build env ob).2.source) ∧
    ((ob.root.value (QStringLiteral "$type")).toString = QStringLiteral "object" →
      QStringLiteral "$parent" ∉ ob.root.map Prod.fst →
        (ob.header
          ++ env.writeIncludes
              (env.readIncludes ob.root ++ [QStringLiteral "QObject"] ++ [QStringLiteral "QString"])
          ++ QStringLiteral "class " ++ ob.className ++ QStringLiteral " : public "
          ++ QStringLiteral "QObject"
          ++ QStringLiteral "\n" ++ QStringLiteral "\x7b\n" ++ QStringLiteral "\tQ_OBJECT\n\n")
            <+: (build env ob).2.header ∧
        (ob.source
          ++ QStringLiteral "#include \"" ++ ob.fileName ++ QStringLiteral ".h\"\n\n"
          ++ ob.className ++ QStringLiteral "::" ++ ob.className
          ++ QStringLiteral "(QObject *parent) :\n"
          ++ QStringLiteral "\t" ++ QStringLiteral "QObject" ++ QStringLiteral "(parent)\n"
          ++ QStringLiteral "\x7b\x7d\n") <+: (build env ob).2.source) ∧
    ((ob.root.value (QStringLiteral "$type")).toString = QStringLiteral "gadget" →
      (QStringLiteral "$parent" ∉ ob.root.map Prod.fst ∨
        ob.root.value (QStringLiteral "$parent") = QJsonValue.String []) →
        (ob.header
          ++ env.writeIncludes
              (env.readIncludes ob.root ++ [QStringLiteral "QSharedDataPointer"]
                ++ [QStringLiteral "QString"])
          ++ QStringLiteral "class " ++ ob.className ++ QStringLiteral "Data;\n"
          ++ QStringLiteral "class " ++ ob.className ++ QStringLiteral "\n"
          ++ QStringLiteral "\x7b\n" ++ QStringLiteral "\tQ_GADGET\n\n")
            <+: (build env ob).2.header ∧
        (build env ob).2.source
          = ob.source
            ++ QStringLiteral "#include \"" ++ ob.fileName ++ QStringLiteral ".h\"\n\n"
            ++ Spec.dataClass ob.className (build env ob).2.members
            ++ ob.className ++ QStringLiteral "::" ++ ob.className ++ QStringLiteral "() :\n"
            ++ QStringLiteral "\td(new " ++ ob.className ++ QStringLiteral "Data())\n"
            ++ QStringLiteral "\x7b\x7d\n\n"
            ++ ob.className ++ QStringLiteral "::" ++ ob.className ++ QStringLiteral "(const "
            ++ ob.className ++ QStringLiteral " &other) :\n"
            ++ QStringLiteral "\td(other.d)\n"
            ++ QStringLiteral "\x7b\x7d\n\n"
            ++ ob.className ++ QStringLiteral "::~" ++ ob.className
            ++ QStringLiteral "() \x7b\x7d\n"
            ++ ((build env ob).2.members.map
                  (Spec.accessorDefinition ob.className (QStringLiteral "d->_"))).flatten
            ++ ((build env ob).2.members.map
                  (Spec.mutatorDefinition env.toUpper ob.className (QStringLiteral "d->_")
                    false)).flatten) ∧
    (∀ P : QString,
      (ob.root.value (QStringLiteral "$type")).toString = QStringLiteral "gadget" →
      P ≠ [] →
      ob.root.value (QStringLiteral "$parent") = QJsonValue.String P →
        (ob.header
          ++ env.writeIncludes
              (env.readIncludes ob.root ++ [QStringLiteral "QSharedDataPointer"]
                ++ [QStringLiteral "QString"])
          ++ QStringLiteral "class " ++ ob.className ++ QStringLiteral "Data;\n"
          ++ QStringLiteral "class " ++ ob.className ++ QStringLiteral " : public " ++ P
          ++ QStringLiteral "\n"
          ++ QStringLiteral "\x7b\n" ++ QStringLiteral "\tQ_GADGET\n\n")
            <+: (build env ob).2.header ∧
        (build env ob).2.source
          = ob.source
            ++ QStringLiteral "#include \"" ++ ob.fileName ++ QStringLiteral ".h\"\n\n"
            ++ Spec.dataClass ob.className (build env ob).2.members
            ++ ob.className ++ QStringLiteral "::" ++ ob.className ++ QStringLiteral "() :\n"
            ++ QStringLiteral "\t" ++ P ++ QStringLiteral "(),\n"
            ++ QStringLiteral "\td(new " ++ ob.className ++ QStringLiteral "Data())\n"
            ++ QStringLiteral "\x7b\x7d\n\n"
            ++ ob.className ++ QStringLiteral "::" ++ ob.className ++ QStringLiteral "(const "
            ++ ob.className ++ QStringLiteral " &other) :\n"
            ++ QStringLiteral "\t" ++ P ++ QStringLiteral "(other),\n"
            ++ QStringLiteral "\td(other.d)\n"
            ++ QStringLiteral "\x7b\x7d\n\n"
            ++ ob.className ++ QStringLiteral "::~" ++ ob.className
            ++ QStringLiteral "() \x7b\x7d\n"
            ++ ((build env ob).2.members.map
                  (Spec.accessorDefinition ob.className (QStringLiteral "d->_"))).flatten
            ++ ((build env ob).2.members.map
                  (Spec.mutatorDefinition env.toUpper ob.className (QStringLiteral "d->_")
                    false)).flatten) := by
  have hobj : ∀ P : QString,
      (ob.root.value (QStringLiteral "$type")).toString = QStringLiteral "object" →
      (ob.root.value (QStringLiteral "$parent")).toStringOr (QStringLiteral "QObject") = P →
        (ob.header
          ++ env.writeIncludes
              (env.readIncludes ob.root ++ [QStringLiteral "QObject"] ++ [QStringLiteral "QString"])
          ++ QStringLiteral "class " ++ ob.className ++ QStringLiteral " : public " ++ P
          ++ QStringLiteral "\n" ++ QStringLiteral "\x7b\n" ++ QStringLiteral "\tQ_OBJECT\n\n")
            <+: (build env ob).2.header ∧
        (ob.source
          ++ QStringLiteral "#include \"" ++ ob.fileName ++ QStringLiteral ".h\"\n\n"
          ++ ob.className ++ QStringLiteral "::" ++ ob.className
          ++ QStringLiteral "(QObject *parent) :\n"
          ++ QStringLiteral "\t" ++ P ++ QStringLiteral "(parent)\n"
          ++ QStringLiteral "\x7b\x7d\n") <+: (build env ob).2.source := by
    intro P htype hP
    rw [build_object env ob htype]
    refine ⟨?_, ?_⟩
    · show _ <+: (generateApiObject env ob).header
      rw [object_header_eq, hP]
      simp only [List.append_assoc, List.prefix_append_right_inj]
      exact List.prefix_append _ _
    · show _ <+: (generateApiObject env ob).source
      rw [object_source_eq, hP]
      simp only [List.append_assoc, List.prefix_append_right_inj]
      exact List.prefix_append _ _
  have hgad : ∀ P : QString,
      (ob.root.value (QStringLiteral "$type")).toString = QStringLiteral "gadget" →
      (ob.root.value (QStringLiteral "$parent")).toString = P →
        (ob.header
          ++ env.writeIncludes
              (env.readIncludes ob.root ++ [QStringLiteral "QSharedDataPointer"]
                ++ [QStringLiteral "QString"])
          ++ QStringLiteral "class " ++ ob.className ++ QStringLiteral "Data;\n"
          ++ (if P.isEmpty then QStringLiteral "class " ++ ob.className ++ QStringLiteral "\n"
              else QStringLiteral "class " ++ ob.className ++ QStringLiteral " : public " ++ P
                ++ QStringLiteral "\n")
          ++ QStringLiteral "\x7b\n" ++ QStringLiteral "\tQ_GADGET\n\n")
            <+: (build env ob).2.header ∧
        (build env ob).2.source
          = ob.source
            ++ QStringLiteral "#include \"" ++ ob.fileName ++ QStringLiteral ".h\"\n\n"
            ++ Spec.dataClass ob.className (build env ob).2.members
            ++ ob.className ++ QStringLiteral "::" ++ ob.className ++ QStringLiteral "() :\n"
            ++ (if P.isEmpty then [] else QStringLiteral "\t" ++ P ++ QStringLiteral "(),\n")
            ++ QStringLiteral "\td(new " ++ ob.className ++ QStringLiteral "Data())\n"
            ++ QStringLiteral "\x7b\x7d\n\n"
            ++ ob.className ++ QStringLiteral "::" ++ ob.className ++ QStringLiteral "(const "
            ++ ob.className ++ QStringLiteral " &other) :\n"
            ++ (if P.isEmpty then [] else QStringLiteral "\t" ++ P ++ QStringLiteral "(other),\n")
            ++ QStringLiteral "\td(other.d)\n"
            ++ QStringLiteral "\x7b\x7d\n\n"
            ++ ob.className ++ QStringLiteral "::~" ++ ob.className
            ++ QStringLiteral "() \x7b\x7d\n"
            ++ ((build env ob).2.members.map
                  (Spec.accessorDefinition ob.className (QStringLiteral "d->_"))).flatten
            ++ ((build env ob).2.members.map
                  (Spec.mutatorDefinition env.toUpper ob.className (QStringLiteral "d->_")
                    false)).flatten := by
    intro P htype hP
    rw [build_gadget env ob (gadget_not_object htype) htype]
    refine ⟨?_, ?_⟩
    · show _ <+: (generateApiGadget env ob).header
      rw [gadget_header_eq, hP]
      simp only [List.append_assoc, List.prefix_append_right_inj]
      exact List.prefix_append _ _
    · show (generateApiGadget env ob).source = _
      rw [gadget_source_eq, generateApiGadget_members, hP]
  refine ⟨?_, ?_, ?_, ?_⟩
  · intro P htype hP
    exact hobj P htype (by rw [hP]; rfl)
  · intro htype habsent
    exact hobj _ htype (by rw [value_of_not_mem _ _ habsent]; rfl)
  · intro htype h
    have hP : (ob.root.value (QStringLiteral "$parent")).toString = [] := by
      rcases h with h | h
      · rw [value_of_not_mem _ _ h]; rfl
      · rw [h]; rfl
    have := hgad [] htype hP
    simpa using this
  · intro P htype hne hP
    have hP2 : (ob.root.value (QStringLiteral "$parent")).toString = P := by rw [hP]; rfl
    have hemp : P.isEmpty = false := by
      cases P with
      | nil => exact absurd rfl hne
      | cons c r => rfl
    have := hgad P htype hP2
    simpa [hemp] using this

theorem parent_resolution_witness :
    ((userBuilder (QStringLiteral "user")).root.value (QStringLiteral "$type")).toString
      = QStringLiteral "object" ∧
    (userBuilder (QStringLiteral "user")).root.value (QStringLiteral "$parent")
      = QJsonValue.String (QStringLiteral "Base") ∧
    QStringLiteral "#include <QObject>\n#include <QString>\n\nclass User : public Base\n\x7b\n\tQ_OBJECT\n\n"
      <+: (build sampleEnv (userBuilder (QStringLiteral "user"))).2.header ∧
    ((recordBuilder (QStringLiteral "record")).root.value (QStringLiteral "$type")).toString
      = QStringLiteral "gadget" ∧
    QStringLiteral "$parent" ∉ (recordBuilder (QStringLiteral "record")).root.map Prod.fst ∧
    QStringLiteral "#include <QSharedDataPointer>\n#include <QString>\n\nclass RecordData;\nclass Record\n\x7b\n\tQ_GADGET\n\n"
      <+: (build sampleEnv (recordBuilder (QStringLiteral "record"))).2.header := by
  refine ⟨rfl, rfl, ?_, rfl, by decide, ?_⟩
  · exact ((parent_resolution sampleEnv (userBuilder (QStringLiteral "user"))).1
      (QStringLiteral "Base") rfl rfl).1
  · exact ((parent_resolution sampleEnv (recordBuilder (QStringLiteral "record"))).2.2.1
      rfl (Or.inl (by decide))).1

/-! ## The error message -/

theorem build_error_message_counterexample :
    (build sampleEnv
        (ObjectBuilder.create [] (QStringLiteral "User") (QStringLiteral "user"))).1
      = Except.error (QStringLiteral "REST_API_OBJECTS must be either of type object or gadget") ∧
    (build sampleEnv
        (ObjectBuilder.create [] (QStringLiteral "User") (QStringLiteral "user"))).1
      ≠ Except.error (QStringLiteral "schema must declare type object or gadget") := by
  refine ⟨rfl, ?_⟩
  intro h
  have h2 : QStringLiteral "REST_API_OBJECTS must be either of type object or gadget"
      = QStringLiteral "schema must declare type object or gadget" := Except.error.inj h
  revert h2
  decide

/-- C12 (amended). Whenever `build` fails, the error it raises carries the message
"REST_API_OBJECTS must be either of type object or gadget". -/
theorem build_error_message (env : Env) (ob : ObjectBuilder) (e : QString)
    (h : (build env ob).1 = Except.error e) :
    e = QStringLiteral "REST_API_OBJECTS must be either of type object or gadget" := by
  by_cases h1 : (ob.root.value (QStringLiteral "$type")).toString = QStringLiteral "object"
  · rw [build_object env ob h1] at h
    simp at h
  · by_cases h2 : (ob.root.value (QStringLiteral "$type")).toString = QStringLiteral "gadget"
    · rw [build_gadget env ob h1 h2] at h
      simp at h
    · rw [build_other env ob h1 h2] at h
      exact (Except.error.inj h).symm

theorem build_error_message_witness :
    (build sampleEnv
        (ObjectBuilder.create [(QStringLiteral "$type", QJsonValue.String (QStringLiteral "Object"))]
          (QStringLiteral "User") (QStringLiteral "user"))).1
      = Except.error (QStringLiteral "REST_API_OBJECTS must be either of type object or gadget") ∧
    QStringLiteral "REST_API_OBJECTS must be either of type object or gadget"
      = QStringLiteral "REST_API_OBJECTS must be either of type object or gadget" :=
  ⟨rfl, build_error_message sampleEnv
      (ObjectBuilder.create [(QStringLiteral "$type", QJsonValue.String (QStringLiteral "Object"))]
        (QStringLiteral "User") (QStringLiteral "user")) _ rfl⟩

/-! ## Schemas without members -/

theorem collect_directives (root : QJsonObject)
    (h : ∀ k ∈ root.map Prod.fst, k.startsWith (QStringLiteral "$") = true) (m : Members) :
    collect root m = m := by
  unfold collect
  induction root with
  | nil => rfl
  | cons it rest ih =>
    have hit : it.1.startsWith (QStringLiteral "$") = true :=
      h it.1 (by simp only [List.map_cons, List.mem_cons, true_or])
    have hrest : ∀ k ∈ rest.map Prod.fst, k.startsWith (QStringLiteral "$") = true :=
      fun k hk => h k (by simp only [List.map_cons, List.mem_cons]; exact Or.inr hk)
    simp only [List.foldl_cons, if_pos hit]
    exact ih hrest

/-- C13. For a schema all of whose keys start with `$` (and an empty member
collection at the start), `build` succeeds when `$type` is "object" or "gadget" and
emits a class without members: the header is the fixed class skeleton (for a
record with the single shared-data field) with no property binding, accessor,
mutator, change-event or field line, and the body has no accessor or mutator
definition. -/
theorem empty_member_set (env : Env) (ob : ObjectBuilder)
    (hkeys : ∀ k ∈ ob.root.map Prod.fst, k.startsWith (QStringLiteral "$") = true)
    (hfresh : ob.members = []) :
    ((ob.root.value (QStringLiteral "$type")).toString = QStringLiteral "object" →
      (build env ob).1 = Except.ok () ∧
      (build env ob).2.members = [] ∧
      (build env ob).2.header
        = ob.header
          ++ env.writeIncludes
              (env.readIncludes ob.root ++ [QStringLiteral "QObject"] ++ [QStringLiteral "QString"])
          ++ QStringLiteral "class " ++ ob.className ++ QStringLiteral " : public "
          ++ (ob.root.value (QStringLiteral "$parent")).toStringOr (QStringLiteral "QObject")
          ++ QStringLiteral "\n" ++ QStringLiteral "\x7b\n" ++ QStringLiteral "\tQ_OBJECT\n\n"
          ++ QStringLiteral "\npublic:\n"
          ++ QStringLiteral "\tQ_INVOKABLE " ++ ob.className
          ++ QStringLiteral "(QObject *parent = nullptr);\n\n"
          ++ QStringLiteral "\npublic Q_SLOTS:\n"
          ++ QStringLiteral "\nQ_SIGNALS:\n"
          ++ QStringLiteral "\nprivate:\n"
          ++ QStringLiteral "\x7d;\n\n" ∧
      (build env ob).2.source
        = ob.source
          ++ QStringLiteral "#include \"" ++ ob.fileName ++ QStringLiteral ".h\"\n\n"
          ++ ob.className ++ QStringLiteral "::" ++ ob.className
          ++ QStringLiteral "(QObject *parent) :\n"
          ++ QStringLiteral "\t"
          ++ (ob.root.value (QStringLiteral "$parent")).toStringOr (QStringLiteral "QObject")
          ++ QStringLiteral "(parent)\n"
          ++ QStringLiteral "\x7b\x7d\n") ∧
    ((ob.root.value (QStringLiteral "$type")).toString = QStringLiteral "gadget" →
      (build env ob).1 = Except.ok () ∧
      (build env ob).2.members = [] ∧
      (build env ob).2.header
        = ob.header
          ++ env.writeIncludes
              (env.readIncludes ob.root ++ [QStringLiteral "QSharedDataPointer"]
                ++ [QStringLiteral "QString"])
          ++ QStringLiteral "class " ++ ob.className ++ QStringLiteral "Data;\n"
          ++ (if (ob.root.value (QStringLiteral "$parent")).toString.isEmpty then
                QStringLiteral "class " ++ ob.className ++ QStringLiteral "\n"
              else
                QStringLiteral "class " ++ ob.className ++ QStringLiteral " : public "
                  ++ (ob.root.value (QStringLiteral "$parent")).toString ++ QStringLiteral "\n")
          ++ QStringLiteral "\x7b\n" ++ QStringLiteral "\tQ_GADGET\n\n"
          ++ QStringLiteral "\npublic:\n"
          ++ QStringLiteral "\t" ++ ob.className ++ QStringLiteral "();\n"
          ++ QStringLiteral "\t" ++ ob.className ++ QStringLiteral "(const " ++ ob.className
          ++ QStringLiteral " &other);\n"
          ++ QStringLiteral "\t~" ++ ob.className ++ QStringLiteral "();\n\n"
          ++ QStringLiteral "\n"
          ++ QStringLiteral "\nprivate:\n"
          ++ QStringLiteral "\t QSharedDataPointer<" ++ ob.className ++ QStringLiteral "Data> d;\n"
          ++ QStringLiteral "\x7d;\n\n" ∧
      (build env ob).2.source
        = ob.source
          ++ QStringLiteral "#include \"" ++ ob.fileName ++ QStringLiteral ".h\"\n\n"
          ++ QStringLiteral "class " ++ (ob.className ++ QStringLiteral "Data")
          ++ QStringLiteral " : public QSharedData\n"
          ++ QStringLiteral "\x7b\n"
          ++ QStringLiteral "public:\n"
          ++ QStringLiteral "\t" ++ (ob.className ++ QStringLiteral "Data") ++ QStringLiteral "();\n"
          ++ QStringLiteral "\t" ++ (ob.className ++ QStringLiteral "Data")
          ++ QStringLiteral "(const " ++ (ob.className ++ QStringLiteral "Data")
          ++ QStringLiteral " &other);\n\n"
          ++ QStringLiteral "\x7d;\n\n"
          ++ (ob.className ++ QStringLiteral "Data") ++ QStringLiteral "::"
          ++ (ob.className ++ QStringLiteral "Data") ++ QStringLiteral "() :\n"
          ++ QStringLiteral "\tQSharedData()\n"
          ++ QStringLiteral "\x7b\x7d\n\n"
          ++ (ob.className ++ QStringLiteral "Data") ++ QStringLiteral "::"
          ++ (ob.className ++ QStringLiteral "Data") ++ QStringLiteral "(const "
          ++ (ob.className ++ QStringLiteral "Data") ++ QStringLiteral " &other) :\n"
          ++ QStringLiteral "\tQSharedData(other)\n"
          ++ QStringLiteral "\x7b\x7d\n\n"
          ++ ob.className ++ QStringLiteral "::" ++ ob.className ++ QStringLiteral "() :\n"
          ++ (if (ob.root.value (QStringLiteral "$parent")).toString.isEmpty then []
              else QStringLiteral "\t" ++ (ob.root.value (QStringLiteral "$parent")).toString
                ++ QStringLiteral "(),\n")
          ++ QStringLiteral "\td(new " ++ ob.className ++ QStringLiteral "Data())\n"
          ++ QStringLiteral "\x7b\x7d\n\n"
          ++ ob.className ++ QStringLiteral "::" ++ ob.className ++ QStringLiteral "(const "
          ++ ob.className ++ QStringLiteral " &other) :\n"
          ++ (if (ob.root.value (QStringLiteral "$parent")).toString.isEmpty then []
              else QStringLiteral "\t" ++ (ob.root.value (QStringLiteral "$parent")).toString
                ++ QStringLiteral "(other),\n")
          ++ QStringLiteral "\td(other.d)\n"
          ++ QStringLiteral "\x7b\x7d\n\n"
          ++ ob.className ++ QStringLiteral "::~" ++ ob.className
          ++ QStringLiteral "() \x7b\x7d\n") := by
  have hcollect : collect ob.root ob.members = [] := by
    rw [collect_directives ob.root hkeys, hfresh]
  refine ⟨?_, ?_⟩
  · intro htype
    rw [build_object env ob htype]
    refine ⟨rfl, ?_, ?_, ?_⟩
    · show (generateApiObject env ob).members = []
      rw [generateApiObject_members, hcollect]
    · show (generateApiObject env ob).header = _
      rw [object_header_eq, hcollect]
      simp only [List.map_nil, List.flatten_nil, List.append_nil, List.append_assoc]
    · show (generateApiObject env ob).source = _
      rw [object_source_eq, hcollect]
      simp only [List.map_nil, List.flatten_nil, List.append_nil, List.append_assoc]
  · intro htype
    rw [build_gadget env ob (gadget_not_object htype) htype]
    refine ⟨rfl, ?_, ?_, ?_⟩
    · show (generateApiGadget env ob).members = []
      rw [generateApiGadget_members, hcollect]
    · show (generateApiGadget env ob).header = _
      rw [gadget_header_eq, hcollect]
      simp only [List.map_nil, List.flatten_nil, List.append_nil, List.append_assoc,
        List.nil_append]
    · show (generateApiGadget env ob).source = _
      rw [gadget_source_eq, hcollect]
      simp only [Spec.dataClass, List.map_nil, List.flatten_nil, List.append_nil,
        List.append_assoc, List.nil_append]

theorem empty_member_set_witness :
    (∀ k ∈ (ObjectBuilder.create
          [(QStringLiteral "$type", QJsonValue.String (QStringLiteral "object"))]
          (QStringLiteral "User") (QStringLiteral "user")).root.map Prod.fst,
        k.startsWith (QStringLiteral "$") = true) ∧
    (build sampleEnv (ObjectBuilder.create
        [(QStringLiteral "$type", QJsonValue.String (QStringLiteral "object"))]
        (QStringLiteral "User") (QStringLiteral "user"))).2.source
      = QStringLiteral "#include \"user.h\"\n\nUser::User(QObject *parent) :\n\tQObject(parent)\n\x7b\x7d\n" ∧
    (build sampleEnv (ObjectBuilder.create
        [(QStringLiteral "$type", QJsonValue.String (QStringLiteral "object"))]
        (QStringLiteral "User") (QStringLiteral "user"))).2.header
      = QStringLiteral "#include <QObject>\n#include <QString>\n\nclass User : public QObject\n\x7b\n\tQ_OBJECT\n\n\npublic:\n\tQ_INVOKABLE User(QObject *parent = nullptr);\n\n\npublic Q_SLOTS:\n\nQ_SIGNALS:\n\nprivate:\n\x7d;\n\n" := by
  have h := (empty_member_set sampleEnv (ObjectBuilder.create
      [(QStringLiteral "$type", QJsonValue.String (QStringLiteral "object"))]
      (QStringLiteral "User") (QStringLiteral "user")) (by decide) rfl).1 rfl
  exact ⟨by decide, h.2.2.2.trans (by decide), h.2.2.1.trans (by decide)⟩

/-! ## The sections of the entity header -/

/-- The line of a member splits its group into the lines of the members before it,
its own line, and the lines of the members after it. -/
theorem group_split (M : Members) (line : QString × QString → QString)
    (m : QString × QString) (hm : m ∈ M) :
    ∃ before after : Members, M = before ++ m :: after ∧
      (M.map line).flatten
        = (before.map line).flatten ++ line m ++ (after.map line).flatten := by
  obtain ⟨before, after, rfl⟩ := List.append_of_mem hm
  exact ⟨before, after, rfl, by simp [List.append_assoc]⟩

/-- C14. For a schema with `$type` "object" the header written by `build` is, after
the text before the call and the include lines, in this order: the class opening
with `Q_OBJECT`, the property bindings, `public:` with the constructor
declaration, the accessor declarations, the marker `public Q_SLOTS:`, the mutator
declarations, the marker `Q_SIGNALS:`, the change-event declarations, the marker
`private:`, the field declarations `type _name;` (one per member, in member
order) and the class closing.  Hence the mutator declaration of every member
stands between `public Q_SLOTS:` and `Q_SIGNALS:`, its change-event declaration
between `Q_SIGNALS:` and `private:`, and its accessor declaration before
`public Q_SLOTS:`. -/
theorem object_header_sections (env : Env) (ob : ObjectBuilder) (M : Members)
    (htype : (ob.root.value (QStringLiteral "$type")).toString = QStringLiteral "object")
    (hmembers : (build env ob).2.members = M) :
    (build env ob).2.header
      = ob.header
        ++ env.writeIncludes
            (env.readIncludes ob.root ++ [QStringLiteral "QObject"] ++ [QStringLiteral "QString"])
        ++ QStringLiteral "class " ++ ob.className ++ QStringLiteral " : public "
        ++ (ob.root.value (QStringLiteral "$parent")).toStringOr (QStringLiteral "QObject")
        ++ QStringLiteral "\n" ++ QStringLiteral "\x7b\n" ++ QStringLiteral "\tQ_OBJECT\n\n"
        ++ (M.map (Spec.propertyBinding env.toUpper)).flatten
        ++ QStringLiteral "\npublic:\n"
        ++ QStringLiteral "\tQ_INVOKABLE " ++ ob.className
        ++ QStringLiteral "(QObject *parent = nullptr);\n\n"
        ++ (M.map Spec.accessorDeclaration).flatten
        ++ QStringLiteral "\npublic Q_SLOTS:\n"
        ++ (M.map (Spec.mutatorDeclaration env.toUpper)).flatten
        ++ QStringLiteral "\nQ_SIGNALS:\n"
        ++ (M.map Spec.changeEventDeclaration).flatten
        ++ QStringLiteral "\nprivate:\n"
        ++ (M.map Spec.fieldDeclaration).flatten
        ++ QStringLiteral "\x7d;\n\n" ∧
    (M.map Spec.fieldDeclaration).length = M.length ∧
    (∀ (i : Nat) (m : QString × QString), M[i]? = some m →
      (M.map Spec.fieldDeclaration)[i]?
        = some (QStringLiteral "\t" ++ m.2 ++ QStringLiteral " _" ++ m.1
            ++ QStringLiteral ";\n")) ∧
    (∀ m ∈ M, ∃ a b c d : QString,
      (build env ob).2.header
        = a ++ QStringLiteral "\npublic Q_SLOTS:\n" ++ b
          ++ Spec.mutatorDeclaration env.toUpper m ++ c
          ++ QStringLiteral "\nQ_SIGNALS:\n" ++ d) ∧
    (∀ m ∈ M, ∃ a b c d : QString,
      (build env ob).2.header
        = a ++ QStringLiteral "\nQ_SIGNALS:\n" ++ b
          ++ Spec.changeEventDeclaration m ++ c
          ++ QStringLiteral "\nprivate:\n" ++ d) ∧
    (∀ m ∈ M, ∃ a b c : QString,
      (build env ob).2.header
        = a ++ Spec.accessorDeclaration m ++ b
          ++ QStringLiteral "\npublic Q_SLOTS:\n" ++ c) := by
  have hcollect : collect ob.root ob.members = M := by
    rw [← hmembers, build_object env ob htype, generateApiObject_members]
  have hheader := object_header_eq env ob
  rw [hcollect] at hheader
  have hpre : ∃ pre : QString, (generateApiObject env ob).header
      = pre ++ (M.map Spec.accessorDeclaration).flatten
        ++ QStringLiteral "\npublic Q_SLOTS:\n"
        ++ (M.map (Spec.mutatorDeclaration env.toUpper)).flatten
        ++ QStringLiteral "\nQ_SIGNALS:\n"
        ++ (M.map Spec.changeEventDeclaration).flatten
        ++ QStringLiteral "\nprivate:\n"
        ++ (M.map Spec.fieldDeclaration).flatten
        ++ QStringLiteral "\x7d;\n\n" := ⟨_, hheader⟩
  obtain ⟨pre, hpre⟩ := hpre
  rw [build_object env ob htype]
  refine ⟨hheader, by simp, ?_, ?_, ?_, ?_⟩
  · intro i m hi
    exact line_at_position M _ m i hi
  · intro m hm
    obtain ⟨before, after, -, hsplit⟩ := group_split M (Spec.mutatorDeclaration env.toUpper) m hm
    refine ⟨pre ++ (M.map Spec.accessorDeclaration).flatten,
      (before.map (Spec.mutatorDeclaration env.toUpper)).flatten,
      (after.map (Spec.mutatorDeclaration env.toUpper)).flatten,
      (M.map Spec.changeEventDeclaration).flatten ++ QStringLiteral "\nprivate:\n"
        ++ (M.map Spec.fieldDeclaration).flatten ++ QStringLiteral "\x7d;\n\n", ?_⟩
    show (generateApiObject env ob).header = _
    rw [hpre, hsplit]
    simp only [List.append_assoc]
  · intro m hm
    obtain ⟨before, after, -, hsplit⟩ := group_split M Spec.changeEventDeclaration m hm
    refine ⟨pre ++ (M.map Spec.accessorDeclaration).flatten
        ++ QStringLiteral "\npublic Q_SLOTS:\n"
        ++ (M.map (Spec.mutatorDeclaration env.toUpper)).flatten,
      (before.map Spec.changeEventDeclaration).flatten,
      (after.map Spec.changeEventDeclaration).flatten,
      (M.map Spec.fieldDeclaration).flatten ++ QStringLiteral "\x7d;\n\n", ?_⟩
    show (generateApiObject env ob).header = _
    rw [hpre, hsplit]
    simp only [List.append_assoc]
  · intro m hm
    obtain ⟨before, after, -, hsplit⟩ := group_split M Spec.accessorDeclaration m hm
    refine ⟨pre ++ (before.map Spec.accessorDeclaration).flatten,
      (after.map Spec.accessorDeclaration).flatten,
      (M.map (Spec.mutatorDeclaration env.toUpper)).flatten ++ QStringLiteral "\nQ_SIGNALS:\n"
        ++ (M.map Spec.changeEventDeclaration).flatten ++ QStringLiteral "\nprivate:\n"
        ++ (M.map Spec.fieldDeclaration).flatten ++ QStringLiteral "\x7d;\n\n", ?_⟩
    show (generateApiObject env ob).header = _
    rw [hpre, hsplit]
    simp only [List.append_assoc]

theorem object_header_sections_witness :
    ((userBuilder (QStringLiteral "user")).root.value (QStringLiteral "$type")).toString
      = QStringLiteral "object" ∧
    (build sampleEnv (userBuilder (QStringLiteral "user"))).2.members
      = [(QStringLiteral "name", QStringLiteral "QString")] ∧
    ([(QStringLiteral "name", QStringLiteral "QString")].map Spec.fieldDeclaration).length = 1 :=
  ⟨rfl, by decide,
   (object_header_sections sampleEnv (userBuilder (QStringLiteral "user"))
      [(QStringLiteral "name", QStringLiteral "QString")] rfl (by decide)).2.1⟩

/-! ## Mutator idempotence -/

theorem run_entity_mutator_eq {V : Type} [DecidableEq V] (name : QString) (σ : Instance V) (v : V)
    (h : σ.fields (QStringLiteral "_" ++ name) = v) :
    run (mutatorBody (QStringLiteral "_") name true) v σ = σ := by
  simp [mutatorBody, run, h]

theorem run_entity_mutator_ne {V : Type} [DecidableEq V] (name : QString) (σ : Instance V) (v : V)
    (h : σ.fields (QStringLiteral "_" ++ name) ≠ v) :
    run (mutatorBody (QStringLiteral "_") name true) v σ
      = { fields := fun f => if f = QStringLiteral "_" ++ name then v else σ.fields f,
          events := σ.events ++ [(name ++ QStringLiteral "Changed", v)] } := by
  simp [mutatorBody, run, h]

/-- C15. The mutator definitions `writeWriteDefinitions(false)` writes have as body
the text of the program guard, assignment, notification.  Run on an instance with
the argument `v`, that program leaves `v` in the field; it changes nothing and
raises nothing when the field already holds `v`, and otherwise raises exactly one
change event carrying `v`; a second call with the same `v` changes nothing, so two
calls in a row raise at most one event. -/
theorem mutator_idempotent (env : Env) (ob : ObjectBuilder) (name : QString)
    {V : Type} [DecidableEq V] (σ : Instance V) (v : V) :
    writeWriteDefinitions env false ob
      = { ob with source := ob.source ++ (ob.members.map (fun m =>
            QStringLiteral "\nvoid " ++ ob.className ++ QStringLiteral "::"
              ++ setter env.toUpper m.1
              ++ QStringLiteral "(" ++ m.2 ++ QStringLiteral " " ++ m.1 ++ QStringLiteral ")\n"
              ++ QStringLiteral "\x7b\n"
              ++ ((mutatorBody (QStringLiteral "_") m.1 true).map Statement.render).flatten
              ++ QStringLiteral "\x7d\n")).flatten } ∧
    (run (mutatorBody (QStringLiteral "_") name true) v σ).fields (QStringLiteral "_" ++ name) = v ∧
    run (mutatorBody (QStringLiteral "_") name true) v
        (run (mutatorBody (QStringLiteral "_") name true) v σ)
      = run (mutatorBody (QStringLiteral "_") name true) v σ ∧
    (σ.fields (QStringLiteral "_" ++ name) = v →
      run (mutatorBody (QStringLiteral "_") name true) v σ = σ) ∧
    (σ.fields (QStringLiteral "_" ++ name) ≠ v →
      (run (mutatorBody (QStringLiteral "_") name true) v σ).events
        = σ.events ++ [(name ++ QStringLiteral "Changed", v)]) ∧
    (∃ raised : List (QString × V),
      (run (mutatorBody (QStringLiteral "_") name true) v
          (run (mutatorBody (QStringLiteral "_") name true) v σ)).events = σ.events ++ raised ∧
      raised.length ≤ 1) := by
  have hfield : (run (mutatorBody (QStringLiteral "_") name true) v σ).fields
      (QStringLiteral "_" ++ name) = v := by
    by_cases h : σ.fields (QStringLiteral "_" ++ name) = v
    · rw [run_entity_mutator_eq name σ v h]; exact h
    · rw [run_entity_mutator_ne name σ v h]; simp
  have hsecond := run_entity_mutator_eq name _ v hfield
  refine ⟨?_, hfield, hsecond, run_entity_mutator_eq name σ v, ?_, ?_⟩
  · rw [writeWriteDefinitions_eq]
    refine congrArg (fun f => { ob with source := ob.source ++ (ob.members.map f).flatten })
      (funext fun m => ?_)
    have e : QStringLiteral "Changed(" = QStringLiteral "Changed" ++ QStringLiteral "(" := rfl
    simp [Spec.mutatorDefinition, Spec.guard, Spec.assignment, Spec.notification, mutatorBody,
      Statement.render, e, List.append_assoc]
  · intro h
    rw [run_entity_mutator_ne name σ v h]
  · rw [hsecond]
    by_cases h : σ.fields (QStringLiteral "_" ++ name) = v
    · exact ⟨[], by rw [run_entity_mutator_eq name σ v h]; simp, by simp⟩
    · exact ⟨[(name ++ QStringLiteral "Changed", v)],
        by rw [run_entity_mutator_ne name σ v h], by simp⟩

theorem mutator_idempotent_witness :
    (({ fields := fun _ => 0, events := [] } : Instance Nat).fields
        (QStringLiteral "_" ++ QStringLiteral "name") ≠ 5) ∧
    (run (mutatorBody (QStringLiteral "_") (QStringLiteral "name") true) 5
        ({ fields := fun _ => 0, events := [] } : Instance Nat)).events
      = [(QStringLiteral "nameChanged", 5)] ∧
    (run (mutatorBody (QStringLiteral "_") (QStringLiteral "name") true) 5
        (run (mutatorBody (QStringLiteral "_") (QStringLiteral "name") true) 5
          ({ fields := fun _ => 0, events := [] } : Instance Nat))).events
      = [(QStringLiteral "nameChanged", 5)] := by
  have h := mutator_idempotent sampleEnv (userBuilder (QStringLiteral "user"))
    (QStringLiteral "name") ({ fields := fun _ => 0, events := [] } : Instance Nat) 5
  refine ⟨by decide, h.2.2.2.2.1 (by decide), ?_⟩
  rw [h.2.2.1]
  exact h.2.2.2.2.1 (by decide)

/-! ## The body of a record -/

/-- C16. `writeDataClass` appends to the body, and changes nothing else, the class
`className` followed by `Data`, deriving from `QSharedData`: its two constructor
declarations, the field list (the same `type _name;` lines, in member order, that
`writeMemberDefinitions` puts in an entity header), the default constructor, and
the copy constructor whose initialiser list is `QSharedData(other)` followed by
the initialisers `,_name(other._name)`, one per member in member order and none
but those of members.  In the body `build` writes for a record schema this class
follows the include line. -/
theorem data_class (env : Env) (ob : ObjectBuilder) (M : Members)
    (htype : (ob.root.value (QStringLiteral "$type")).toString = QStringLiteral "gadget")
    (hmembers : (build env ob).2.members = M) :
    (∀ o : ObjectBuilder,
      writeDataClass o
        = { o with source := o.source
              ++ QStringLiteral "class " ++ (o.className ++ QStringLiteral "Data")
              ++ QStringLiteral " : public QSharedData\n"
              ++ QStringLiteral "\x7b\n"
              ++ QStringLiteral "public:\n"
              ++ QStringLiteral "\t" ++ (o.className ++ QStringLiteral "Data")
              ++ QStringLiteral "();\n"
              ++ QStringLiteral "\t" ++ (o.className ++ QStringLiteral "Data")
              ++ QStringLiteral "(const " ++ (o.className ++ QStringLiteral "Data")
              ++ QStringLiteral " &other);\n\n"
              ++ (o.members.map Spec.fieldDeclaration).flatten
              ++ QStringLiteral "\x7d;\n\n"
              ++ (o.className ++ QStringLiteral "Data") ++ QStringLiteral "::"
              ++ (o.className ++ QStringLiteral "Data") ++ QStringLiteral "() :\n"
              ++ QStringLiteral "\tQSharedData()\n"
              ++ QStringLiteral "\x7b\x7d\n\n"
              ++ (o.className ++ QStringLiteral "Data") ++ QStringLiteral "::"
              ++ (o.className ++ QStringLiteral "Data") ++ QStringLiteral "(const "
              ++ (o.className ++ QStringLiteral "Data") ++ QStringLiteral " &other) :\n"
              ++ QStringLiteral "\tQSharedData(other)\n"
              ++ (o.members.map Spec.copyInitialiser).flatten
              ++ QStringLiteral "\x7b\x7d\n\n" }) ∧
    (∀ o : ObjectBuilder,
      (writeMemberDefinitions Stream.header o).header
          = o.header ++ (o.members.map Spec.fieldDeclaration).flatten ∧
      (writeMemberDefinitions Stream.source o).source
          = o.source ++ (o.members.map Spec.fieldDeclaration).flatten) ∧
    (ob.source
        ++ QStringLiteral "#include \"" ++ ob.fileName ++ QStringLiteral ".h\"\n\n"
        ++ Spec.dataClass ob.className M) <+: (build env ob).2.source ∧
    (M.map Spec.fieldDeclaration).length = M.length ∧
    (M.map Spec.copyInitialiser).length = M.length ∧
    (∀ (i : Nat) (m : QString × QString), M[i]? = some m →
      (M.map Spec.fieldDeclaration)[i]?
        = some (QStringLiteral "\t" ++ m.2 ++ QStringLiteral " _" ++ m.1
            ++ QStringLiteral ";\n") ∧
      (M.map Spec.copyInitialiser)[i]?
        = some (QStringLiteral "\t,_" ++ m.1 ++ QStringLiteral "(other._" ++ m.1
            ++ QStringLiteral ")\n")) ∧
    (∀ x ∈ M.map Spec.copyInitialiser, ∃ m ∈ M,
      x = QStringLiteral "\t,_" ++ m.1 ++ QStringLiteral "(other._" ++ m.1
            ++ QStringLiteral ")\n") := by
  have hcollect : collect ob.root ob.members = M := by
    rw [← hmembers, build_gadget env ob (gadget_not_object htype) htype,
      generateApiGadget_members]
  refine ⟨?_, ?_, ?_, by simp, by simp, ?_, ?_⟩
  · intro o
    rw [writeDataClass_eq]
    simp only [Spec.dataClass, List.append_assoc]
  · intro o
    rw [writeMemberDefinitions_header, writeMemberDefinitions_source]
    exact ⟨rfl, rfl⟩
  · rw [build_gadget env ob (gadget_not_object htype) htype]
    show _ <+: (generateApiGadget env ob).source
    rw [gadget_source_eq, hcollect]
    simp only [List.append_assoc, List.prefix_append_right_inj]
    exact List.prefix_append _ _
  · intro i m hi
    exact ⟨line_at_position M _ m i hi, line_at_position M _ m i hi⟩
  · intro x hx
    obtain ⟨m, hm, rfl⟩ := List.mem_map.1 hx
    exact ⟨m, hm, rfl⟩

theorem data_class_witness :
    ((recordBuilder (QStringLiteral "record")).root.value (QStringLiteral "$type")).toString
      = QStringLiteral "gadget" ∧
    (build sampleEnv (recordBuilder (QStringLiteral "record"))).2.members
      = [(QStringLiteral "id", QStringLiteral "int")] ∧
    QStringLiteral "#include \"record.h\"\n\nclass RecordData : public QSharedData\n\x7b\npublic:\n\tRecordData();\n\tRecordData(const RecordData &other);\n\n\tint _id;\n\x7d;\n\nRecordData::RecordData() :\n\tQSharedData()\n\x7b\x7d\n\nRecordData::RecordData(const RecordData &other) :\n\tQSharedData(other)\n\t,_id(other._id)\n\x7b\x7d\n\n"
      <+: (build sampleEnv (recordBuilder (QStringLiteral "record"))).2.source := by
  refine ⟨rfl, by decide, ?_⟩
  exact (data_class sampleEnv (recordBuilder (QStringLiteral "record"))
    [(QStringLiteral "id", QStringLiteral "int")] rfl (by decide)).2.2.1

/-- C17. For a schema with `$type` "gadget" the body written by `build` is, in this
order: the text before the call, the include line, the data class, the default
constructor of the handle, its copy constructor, its destructor, the accessor
definitions and the mutator definitions.  The initialiser list of the default
constructor is `parent(),` (only when `$parent` is a non-empty string) and then
`d(new classNameData())`; that of the copy constructor is `parent(other),` (only
when `$parent` is non-empty) and then `d(other.d)`, whatever the members are. -/
theorem record_body_order (env : Env) (ob : ObjectBuilder) (M : Members)
    (htype : (ob.root.value (QStringLiteral "$type")).toString = QStringLiteral "gadget")
    (hmembers : (build env ob).2.members = M) :
    (build env ob).2.source
      = ob.source
        ++ QStringLiteral "#include \"" ++ ob.fileName ++ QStringLiteral ".h\"\n\n"
        ++ Spec.dataClass ob.className M
        ++ (ob.className ++ QStringLiteral "::" ++ ob.className ++ QStringLiteral "() :\n"
            ++ (if (ob.root.value (QStringLiteral "$parent")).toString.isEmpty then []
                else QStringLiteral "\t" ++ (ob.root.value (QStringLiteral "$parent")).toString
                  ++ QStringLiteral "(),\n")
            ++ QStringLiteral "\td(new " ++ ob.className ++ QStringLiteral "Data())\n"
            ++ QStringLiteral "\x7b\x7d\n\n")
        ++ (ob.className ++ QStringLiteral "::" ++ ob.className ++ QStringLiteral "(const "
            ++ ob.className ++ QStringLiteral " &other) :\n"
            ++ (if (ob.root.value (QStringLiteral "$parent")).toString.isEmpty then []
                else QStringLiteral "\t" ++ (ob.root.value (QStringLiteral "$parent")).toString
                  ++ QStringLiteral "(other),\n")
            ++ QStringLiteral "\td(other.d)\n"
            ++ QStringLiteral "\x7b\x7d\n\n")
        ++ (ob.className ++ QStringLiteral "::~" ++ ob.className
            ++ QStringLiteral "() \x7b\x7d\n")
        ++ (M.map (Spec.accessorDefinition ob.className (QStringLiteral "d->_"))).flatten
        ++ (M.map (Spec.mutatorDefinition env.toUpper ob.className (QStringLiteral "d->_")
              false)).flatten := by
  have hcollect : collect ob.root ob.members = M := by
    rw [← hmembers, build_gadget env ob (gadget_not_object htype) htype,
      generateApiGadget_members]
  rw [build_gadget env ob (gadget_not_object htype) htype]
  show (generateApiGadget env ob).source = _
  rw [gadget_source_eq, hcollect]
  simp only [List.append_assoc]

theorem record_body_order_witness :
    ((recordBuilder (QStringLiteral "record")).root.value (QStringLiteral "$type")).toString
      = QStringLiteral "gadget" ∧
    (build sampleEnv (recordBuilder (QStringLiteral "record"))).2.members
      = [(QStringLiteral "id", QStringLiteral "int")] ∧
    (build sampleEnv (recordBuilder (QStringLiteral "record"))).2.source
      = QStringLiteral "#include \"record.h\"\n\n" ++ recordBody :=
  ⟨rfl, by decide,
   (record_body_order sampleEnv (recordBuilder (QStringLiteral "record"))
      [(QStringLiteral "id", QStringLiteral "int")] rfl (by decide)).trans (by decide)⟩

/-! ## The include list -/

/-- C18. Whatever the two include services are, the header written by `build` is the
text before the call, then what `writeIncludes` returns for the list made of the
schema's own includes (`readIncludes`), unchanged and in their order, followed by
`QObject` and `QString` for an entity, by `QSharedDataPointer` and `QString` for a
record, and then a text that does not depend on the include services. -/
theorem baseline_imports (toUpper : QChar → QChar) (ob : ObjectBuilder) :
    ((ob.root.value (QStringLiteral "$type")).toString = QStringLiteral "object" →
      ∃ rest : QString, ∀ (readIncludes : QJsonObject → List QString)
          (writeIncludes : List QString → QString),
        ∃ includes : List QString,
          (build (Env.mk readIncludes writeIncludes toUpper) ob).2.header
            = ob.header ++ writeIncludes includes ++ rest ∧
          includes = readIncludes ob.root
            ++ [QStringLiteral "QObject", QStringLiteral "QString"] ∧
          includes.take (readIncludes ob.root).length = readIncludes ob.root ∧
          includes.drop (readIncludes ob.root).length
            = [QStringLiteral "QObject", QStringLiteral "QString"]) ∧
    ((ob.root.value (QStringLiteral "$type")).toString = QStringLiteral "gadget" →
      ∃ rest : QString, ∀ (readIncludes : QJsonObject → List QString)
          (writeIncludes : List QString → QString),
        ∃ includes : List QString,
          (build (Env.mk readIncludes writeIncludes toUpper) ob).2.header
            = ob.header ++ writeIncludes includes ++ rest ∧
          includes = readIncludes ob.root
            ++ [QStringLiteral "QSharedDataPointer", QStringLiteral "QString"] ∧
          includes.take (readIncludes ob.root).length = readIncludes ob.root ∧
          includes.drop (readIncludes ob.root).length
            = [QStringLiteral "QSharedDataPointer", QStringLiteral "QString"]) := by
  refine ⟨?_, ?_⟩
  · intro htype
    refine ⟨QStringLiteral "class " ++ ob.className ++ QStringLiteral " : public "
        ++ (ob.root.value (QStringLiteral "$parent")).toStringOr (QStringLiteral "QObject")
        ++ QStringLiteral "\n" ++ QStringLiteral "\x7b\n" ++ QStringLiteral "\tQ_OBJECT\n\n"
        ++ ((collect ob.root ob.members).map (Spec.propertyBinding toUpper)).flatten
        ++ QStringLiteral "\npublic:\n"
        ++ QStringLiteral "\tQ_INVOKABLE " ++ ob.className
        ++ QStringLiteral "(QObject *parent = nullptr);\n\n"
        ++ ((collect ob.root ob.members).map Spec.accessorDeclaration).flatten
        ++ QStringLiteral "\npublic Q_SLOTS:\n"
        ++ ((collect ob.root ob.members).map (Spec.mutatorDeclaration toUpper)).flatten
        ++ QStringLiteral "\nQ_SIGNALS:\n"
        ++ ((collect ob.root ob.members).map Spec.changeEventDeclaration).flatten
        ++ QStringLiteral "\nprivate:\n"
        ++ ((collect ob.root ob.members).map Spec.fieldDeclaration).flatten
        ++ QStringLiteral "\x7d;\n\n", ?_⟩
    intro readIncludes writeIncludes
    refine ⟨_, ?_, rfl, by simp, by simp⟩
    rw [build_object _ ob htype]
    show (generateApiObject _ ob).header = _
    rw [object_header_eq]
    simp only [List.append_assoc, List.singleton_append]
  · intro htype
    refine ⟨QStringLiteral "class " ++ ob.className ++ QStringLiteral "Data;\n"
        ++ (if (ob.root.value (QStringLiteral "$parent")).toString.isEmpty then
              QStringLiteral "class " ++ ob.className ++ QStringLiteral "\n"
            else
              QStringLiteral "class " ++ ob.className ++ QStringLiteral " : public "
                ++ (ob.root.value (QStringLiteral "$parent")).toString ++ QStringLiteral "\n")
        ++ QStringLiteral "\x7b\n" ++ QStringLiteral "\tQ_GADGET\n\n"
        ++ ((collect ob.root ob.members).map (Spec.plainPropertyBinding toUpper)).flatten
        ++ QStringLiteral "\npublic:\n"
        ++ QStringLiteral "\t" ++ ob.className ++ QStringLiteral "();\n"
        ++ QStringLiteral "\t" ++ ob.className ++ QStringLiteral "(const " ++ ob.className
        ++ QStringLiteral " &other);\n"
        ++ QStringLiteral "\t~" ++ ob.className ++ QStringLiteral "();\n\n"
        ++ ((collect ob.root ob.members).map Spec.accessorDeclaration).flatten
        ++ QStringLiteral "\n"
        ++ ((collect ob.root ob.members).map (Spec.mutatorDeclaration toUpper)).flatten
        ++ QStringLiteral "\nprivate:\n"
        ++ QStringLiteral "\t QSharedDataPointer<" ++ ob.className ++ QStringLiteral "Data> d;\n"
        ++ QStringLiteral "\x7d;\n\n", ?_⟩
    intro readIncludes writeIncludes
    refine ⟨_, ?_, rfl, by simp, by simp⟩
    rw [build_gadget _ ob (gadget_not_object htype) htype]
    show (generateApiGadget _ ob).header = _
    rw [gadget_header_eq]
    simp only [List.append_assoc, List.singleton_append]

theorem baseline_imports_witness :
    ((userBuilder (QStringLiteral "user")).root.value (QStringLiteral "$type")).toString
      = QStringLiteral "object" ∧
    ∃ rest : QString, ∀ (readIncludes : QJsonObject → List QString)
        (writeIncludes : List QString → QString),
      ∃ includes : List QString,
        (build (Env.mk readIncludes writeIncludes Char.toUpper)
            (userBuilder (QStringLiteral "user"))).2.header
          = (userBuilder (QStringLiteral "user")).header ++ writeIncludes includes ++ rest ∧
        includes = readIncludes (userBuilder (QStringLiteral "user")).root
          ++ [QStringLiteral "QObject", QStringLiteral "QString"] ∧
        includes.take (readIncludes (userBuilder (QStringLiteral "user")).root).length
          = readIncludes (userBuilder (QStringLiteral "user")).root ∧
        includes.drop (readIncludes (userBuilder (QStringLiteral "user")).root).length
          = [QStringLiteral "QObject", QStringLiteral "QString"] :=
  ⟨rfl, (baseline_imports Char.toUpper (userBuilder (QStringLiteral "user"))).1 rfl⟩

/-! ## Clashing mutator names -/

theorem setter_cons (toUpper : QChar → QChar) (c : QChar) (rest : QString) :
    setter toUpper (c :: rest) = QStringLiteral "set" ++ toUpper c :: rest := by
  simp [setter, QStringLiteral, QString.setCharAt, QString.charAt]

/-- C19. The mutator name is not injective in the member name: `name` and `Name` are
distinct and both have the mutator name `setName`, so the entity schema declaring
both members gets two mutator declarations and two mutator definitions named
`setName`.  For non-empty names, `setter` gives the same result exactly when the
first characters have the same upper-case form and the remaining characters
agree. -/
theorem setter_not_injective :
    QStringLiteral "name" ≠ QStringLiteral "Name" ∧
    setter Char.toUpper (QStringLiteral "name") = QStringLiteral "setName" ∧
    setter Char.toUpper (QStringLiteral "Name") = QStringLiteral "setName" ∧
    (build sampleEnv
        (ObjectBuilder.create nameClashSchema (QStringLiteral "User") (QStringLiteral "user"))).1
      = Except.ok () ∧
    (build sampleEnv
        (ObjectBuilder.create nameClashSchema (QStringLiteral "User")
          (QStringLiteral "user"))).2.members
      = [(QStringLiteral "Name", QStringLiteral "QString"),
         (QStringLiteral "name", QStringLiteral "QString")] ∧
    QStringLiteral "\npublic Q_SLOTS:\n\tvoid setName(QString Name);\n\tvoid setName(QString name);\n\nQ_SIGNALS:\n"
      <:+: (build sampleEnv
        (ObjectBuilder.create nameClashSchema (QStringLiteral "User")
          (QStringLiteral "user"))).2.header ∧
    occurrences (QStringLiteral "\tvoid setName(")
      (build sampleEnv
        (ObjectBuilder.create nameClashSchema (QStringLiteral "User")
          (QStringLiteral "user"))).2.header = 2 ∧
    QStringLiteral "\nvoid User::setName(QString Name)\n\x7b\n"
      <:+: (build sampleEnv
        (ObjectBuilder.create nameClashSchema (QStringLiteral "User")
          (QStringLiteral "user"))).2.source ∧
    QStringLiteral "\nvoid User::setName(QString name)\n\x7b\n"
      <:+: (build sampleEnv
        (ObjectBuilder.create nameClashSchema (QStringLiteral "User")
          (QStringLiteral "user"))).2.source ∧
    occurrences (QStringLiteral "\nvoid User::setName(")
      (build sampleEnv
        (ObjectBuilder.create nameClashSchema (QStringLiteral "User")
          (QStringLiteral "user"))).2.source = 2 ∧
    (∀ (toUpper : QChar → QChar) (a b : QChar) (ra rb : QString),
      setter toUpper (a :: ra) = setter toUpper (b :: rb) ↔ (toUpper a = toUpper b ∧ ra = rb)) := by
  refine ⟨by decide, by decide, by decide, rfl, by decide, by decide, by decide,
    by decide, by decide, by decide, ?_⟩
  intro toUpper a b ra rb
  rw [setter_cons, setter_cons]
  constructor
  · intro h
    have h2 := List.append_cancel_left h
    exact ⟨(List.cons.inj h2).1, (List.cons.inj h2).2⟩
  · rintro ⟨h1, h2⟩
    rw [h1, h2]

/-! ## The file name -/

/-- C20. The file name enters the output only through the include line of the body:
for every schema, class name and two file names the headers written by `build`
are the same (as are the outcome and the member collection), and for an entity
and for a record schema the body is the text before the call, the line
`#include "<fileName>.h"` with the blank line after it, and then a text that does
not depend on the file name. -/
theorem file_name_scope (env : Env) (ob : ObjectBuilder) (f1 f2 : QString) :
    (build env { ob with fileName := f1 }).2.header
      = (build env { ob with fileName := f2 }).2.header ∧
    (build env { ob with fileName := f1 }).1 = (build env { ob with fileName := f2 }).1 ∧
    (build env { ob with fileName := f1 }).2.members
      = (build env { ob with fileName := f2 }).2.members ∧
    (((ob.root.value (QStringLiteral "$type")).toString = QStringLiteral "object" ∨
      (ob.root.value (QStringLiteral "$type")).toString = QStringLiteral "gadget") →
      ∃ rest : QString, ∀ f : QString,
        (build env { ob with fileName := f }).2.source
          = ob.source ++ QStringLiteral "#include \"" ++ f ++ QStringLiteral ".h\"\n\n"
            ++ rest) := by
  by_cases h1 : (ob.root.value (QStringLiteral "$type")).toString = QStringLiteral "object"
  · have hb : ∀ f : QString, build env { ob with fileName := f }
        = (Except.ok (), generateApiObject env { ob with fileName := f }) :=
      fun f => build_object env _ h1
    refine ⟨?_, ?_, ?_, ?_⟩
    · rw [hb f1, hb f2]
      show (generateApiObject env _).header = (generateApiObject env _).header
      rw [object_header_eq, object_header_eq]
    · rw [hb f1, hb f2]
    · rw [hb f1, hb f2]
      show (generateApiObject env _).members = (generateApiObject env _).members
      rw [generateApiObject_members, generateApiObject_members]
    · intro _
      refine ⟨ob.className ++ QStringLiteral "::" ++ ob.className
          ++ QStringLiteral "(QObject *parent) :\n"
          ++ QStringLiteral "\t"
          ++ (ob.root.value (QStringLiteral "$parent")).toStringOr (QStringLiteral "QObject")
          ++ QStringLiteral "(parent)\n"
          ++ QStringLiteral "\x7b\x7d\n"
          ++ ((collect ob.root ob.members).map
                (Spec.accessorDefinition ob.className (QStringLiteral "_"))).flatten
          ++ ((collect ob.root ob.members).map
                (Spec.mutatorDefinition env.toUpper ob.className (QStringLiteral "_")
                  true)).flatten, fun f => ?_⟩
      rw [hb f]
      show (generateApiObject env _).source = _
      rw [object_source_eq]
      simp only [List.append_assoc]
  · by_cases h2 : (ob.root.value (QStringLiteral "$type")).toString = QStringLiteral "gadget"
    · have hb : ∀ f : QString, build env { ob with fileName := f }
          = (Except.ok (), generateApiGadget env { ob with fileName := f }) :=
        fun f => build_gadget env _ h1 h2
      refine ⟨?_, ?_, ?_, ?_⟩
      · rw [hb f1, hb f2]
        show (generateApiGadget env _).header = (generateApiGadget env _).header
        rw [gadget_header_eq, gadget_header_eq]
      · rw [hb f1, hb f2]
      · rw [hb f1, hb f2]
        show (generateApiGadget env _).members = (generateApiGadget env _).members
        rw [generateApiGadget_members, generateApiGadget_members]
      · intro _
        refine ⟨Spec.dataClass ob.className (collect ob.root ob.members)
            ++ ob.className ++ QStringLiteral "::" ++ ob.className ++ QStringLiteral "() :\n"
            ++ (if (ob.root.value (QStringLiteral "$parent")).toString.isEmpty then []
                else QStringLiteral "\t" ++ (ob.root.value (QStringLiteral "$parent")).toString
                  ++ QStringLiteral "(),\n")
            ++ QStringLiteral "\td(new " ++ ob.className ++ QStringLiteral "Data())\n"
            ++ QStringLiteral "\x7b\x7d\n\n"
            ++ ob.className ++ QStringLiteral "::" ++ ob.className ++ QStringLiteral "(const "
            ++ ob.className ++ QStringLiteral " &other) :\n"
            ++ (if (ob.root.value (QStringLiteral "$parent")).toString.isEmpty then []
                else QStringLiteral "\t" ++ (ob.root.value (QStringLiteral "$parent")).toString
                  ++ QStringLiteral "(other),\n")
            ++ QStringLiteral "\td(other.d)\n"
            ++ QStringLiteral "\x7b\x7d\n\n"
            ++ ob.className ++ QStringLiteral "::~" ++ ob.className
            ++ QStringLiteral "() \x7b\x7d\n"
            ++ ((collect ob.root ob.members).map
                  (Spec.accessorDefinition ob.className (QStringLiteral "d->_"))).flatten
            ++ ((collect ob.root ob.members).map
                  (Spec.mutatorDefinition env.toUpper ob.className (QStringLiteral "d->_")
                    false)).flatten, fun f => ?_⟩
        rw [hb f]
        show (generateApiGadget env _).source = _
        rw [gadget_source_eq]
        simp only [List.append_assoc]
    · have hb : ∀ f : QString, build env { ob with fileName := f }
          = (Except.error
              (QStringLiteral "REST_API_OBJECTS must be either of type object or gadget"),
             { ob with fileName := f }) :=
        fun f => build_other env _ h1 h2
      refine ⟨?_, ?_, ?_, ?_⟩
      · rw [hb f1, hb f2]
      · rw [hb f1, hb f2]
      · rw [hb f1, hb f2]
      · rintro (h | h)
        · exact absurd h h1
        · exact absurd h h2

theorem file_name_scope_witness :
    (((userBuilder (QStringLiteral "user")).root.value (QStringLiteral "$type")).toString
        = QStringLiteral "object" ∨
      ((userBuilder (QStringLiteral "user")).root.value (QStringLiteral "$type")).toString
        = QStringLiteral "gadget") ∧
    (build sampleEnv { userBuilder (QStringLiteral "user") with
        fileName := QStringLiteral "a" }).2.header
      = (build sampleEnv { userBuilder (QStringLiteral "user") with
        fileName := QStringLiteral "b" }).2.header ∧
    ∃ rest : QString, ∀ f : QString,
      (build sampleEnv { userBuilder (QStringLiteral "user") with fileName := f }).2.source
        = (userBuilder (QStringLiteral "user")).source
          ++ QStringLiteral "#include \"" ++ f ++ QStringLiteral ".h\"\n\n" ++ rest :=
  ⟨Or.inl rfl,
   (file_name_scope sampleEnv (userBuilder (QStringLiteral "user"))
      (QStringLiteral "a") (QStringLiteral "b")).1,
   (file_name_scope sampleEnv (userBuilder (QStringLiteral "user"))
      (QStringLiteral "a") (QStringLiteral "b")).2.2.2 (Or.inl rfl)⟩

end QtRestClient
